import Mathlib

/-!
Verification of the arkitect task-graph orchestrator against its
natural-language specification.  The Rust sources are shallowly embedded:
pure functions become Lean functions, stateful methods become explicit
state-passing functions, `u32`/`u64` become `Nat`, `i64` timestamps become
`Int`, `f64` values are modelled by exact rationals (`ℚ`), `Uuid` values by
`Nat`, and fallible methods return `Except`/`Option`.
-/

namespace Arkitect

/-- Unique task identifier (models `uuid::Uuid` from `graph.rs`). -/
abbrev TaskId := Nat

/-- Unique dependency-edge identifier (models `uuid::Uuid`). -/
abbrev EdgeId := Nat

/-- Replace the binding of `k` in an association list, or append one;
models `HashMap::insert` / SQL `INSERT OR REPLACE` at the level of
lookups. -/
def insertReplace {α β : Type} [BEq α] :
    List (α × β) → α → β → List (α × β)
  | [], k, v => [(k, v)]
  | (k1, v1) :: rest, k, v =>
    if k1 == k then (k, v) :: rest
    else (k1, v1) :: insertReplace rest k v

/-- Remove every binding of `k`; models `HashMap::remove` / SQL
`DELETE ... WHERE`. -/
def eraseKey {α β : Type} [BEq α] (l : List (α × β)) (k : α) :
    List (α × β) :=
  l.filter (fun p => !(p.1 == k))

namespace Orch

/-- `TaskStatus` from `orchestrator_core/src/graph.rs`. -/
inductive TaskStatus where
  | pending
  | waiting
  | running
  | completed
  | failed
  | cancelled
  | paused
deriving DecidableEq, Repr

/-- `TaskPriority` from `orchestrator_core/src/graph.rs`. -/
inductive TaskPriority where
  | low
  | medium
  | high
  | critical
deriving DecidableEq, Repr

/-- `TaskType` from `orchestrator_core/src/graph.rs`. -/
inductive TaskType where
  | small
  | medium
  | large
  | extraLarge
deriving DecidableEq, Repr

/-- `ExecutionLayer` from `orchestrator_core/src/layers.rs`. -/
inductive ExecutionLayer where
  | local
  | cluster
  | quantumSim
deriving DecidableEq, Repr

/-- `DependencyType` from `orchestrator_core/src/graph.rs`. -/
inductive DependencyType where
  | hard
  | soft
  | resource
  | data
deriving DecidableEq, Repr

/-- A JSON value (models `serde_json::Value`, with numbers as exact
rationals).  Used for the free-form `configuration` / `metadata` maps and
as the payload type of serialized snapshots. -/
inductive Json where
  | null
  | bool (b : Bool)
  | num (q : ℚ)
  | str (s : String)
  | arr (xs : List Json)
  | obj (fields : List (String × Json))

/-- `TaskMetrics` from `orchestrator_core/src/graph.rs`; `f64` usage gauges
are modelled by `ℚ`, timestamps by `Int` (milliseconds since the epoch). -/
structure TaskMetrics where
  start_time : Option Int
  end_time : Option Int
  cpu_usage : ℚ
  memory_usage : ℚ
  network_usage : ℚ
  execution_layer : ExecutionLayer
  retry_count : Nat
  error_messages : List String

/-- `TaskNode` from `orchestrator_core/src/graph.rs`.  `HashSet<String>`
(`tags`) and `HashMap<String, Value>` (`configuration`,
`execution_context`) are modelled by association lists. -/
structure TaskNode where
  id : TaskId
  name : String
  description : Option String
  status : TaskStatus
  priority : TaskPriority
  task_type : TaskType
  tags : List String
  components : List String
  created_at : Int
  updated_at : Int
  scheduled_at : Option Int
  deadline : Option Int
  metrics : TaskMetrics
  configuration : List (String × Json)
  execution_context : List (String × Json)

/-- `TaskNode::new` from `graph.rs`; the fresh uuid and the current time
are effects of the Rust constructor and therefore taken as arguments. -/
def TaskNode.new (id : TaskId) (now : Int) (name : String)
    (description : Option String) : TaskNode where
  id := id
  name := name
  description := description
  status := .pending
  priority := .medium
  task_type := .medium
  tags := []
  components := []
  created_at := now
  updated_at := now
  scheduled_at := none
  deadline := none
  metrics :=
    { start_time := none
      end_time := none
      cpu_usage := 0
      memory_usage := 0
      network_usage := 0
      execution_layer := .local
      retry_count := 0
      error_messages := [] }
  configuration := []
  execution_context := []

/-- `TaskNode::can_execute` from `graph.rs`: the task has not started. -/
def TaskNode.canExecute (t : TaskNode) : Bool :=
  match t.status with
  | .pending => true
  | .waiting => true
  | _ => false

/-- `TaskNode::is_complete` from `graph.rs`: note that `Failed` and
`Cancelled` count as complete in the source. -/
def TaskNode.isComplete (t : TaskNode) : Bool :=
  match t.status with
  | .completed => true
  | .failed => true
  | .cancelled => true
  | _ => false

/-- `DependencyEdge` from `graph.rs` (`weight : f64` as `ℚ`). -/
structure DependencyEdge where
  id : EdgeId
  source : TaskId
  target : TaskId
  dependency_type : DependencyType
  weight : ℚ
  metadata : List (String × Json)
  created_at : Int

/-- `DependencyEdge::new` from `graph.rs` (fresh uuid / current time as
arguments). -/
def DependencyEdge.new (id : EdgeId) (now : Int) (source target : TaskId)
    (dependency_type : DependencyType) : DependencyEdge where
  id := id
  source := source
  target := target
  dependency_type := dependency_type
  weight := 1
  metadata := []
  created_at := now

/-- The errors of `errors.rs` reached by the embedded operations. -/
inductive OrchError where
  | taskNotFound (id : TaskId)
  | cyclicDependency
  | externalServiceError (service message : String)
deriving Repr

/-- `TaskMesh` from `graph.rs`.  The petgraph `Graph` stores its nodes and
edges in insertion-ordered vectors; `task_index` and `edge_index` map ids
to positions in those vectors and are therefore determined by the two
lists, so the mesh is modelled by the lists alone. -/
structure TaskMesh where
  nodes : List TaskNode
  edges : List DependencyEdge

/-- `TaskMesh::new`. -/
def TaskMesh.new : TaskMesh := { nodes := [], edges := [] }

/-- `TaskMesh::get_task`: node lookup through `task_index`. -/
def TaskMesh.getTask (m : TaskMesh) (taskId : TaskId) : Option TaskNode :=
  m.nodes.find? (fun t => t.id == taskId)

/-- `TaskMesh::add_task` (always `Ok` in the source). -/
def TaskMesh.addTask (m : TaskMesh) (t : TaskNode) : TaskId × TaskMesh :=
  (t.id, { m with nodes := m.nodes ++ [t] })

/-- `TaskMesh::get_dependencies`: the incoming petgraph neighbours of the
task, i.e. the source nodes of edges pointing at it (the task itself was
already found by the caller; missing endpoints are skipped exactly like
`filter_map(node_weight)`). -/
def TaskMesh.getDependencies (m : TaskMesh) (taskId : TaskId) : List TaskNode :=
  (m.edges.filter (fun e => e.target == taskId)).filterMap
    (fun e => m.getTask e.source)

/-- `TaskMesh::can_execute_task` from `graph.rs`: error when the task is
unknown; `false` when it already started; otherwise all incoming
dependencies (of every kind) must be `is_complete`. -/
def TaskMesh.canExecuteTask (m : TaskMesh) (taskId : TaskId) :
    Except OrchError Bool :=
  match m.getTask taskId with
  | none => .error (.taskNotFound taskId)
  | some task =>
    if !task.canExecute then .ok false
    else .ok ((m.getDependencies taskId).all (fun dep => dep.isComplete))

/-- One round of Kahn's algorithm, used to decide
`petgraph::algo::is_cyclic_directed`: peel off the vertices with no
incoming edge; if none can be peeled while vertices remain, there is a
cycle.  `fuel` bounds the recursion by the number of vertices. -/
def hasCycleFuel : Nat → List TaskId → List (TaskId × TaskId) → Bool
  | 0, ns, _ => !ns.isEmpty
  | fuel + 1, ns, es =>
    if ns.isEmpty then false
    else
      let ready := ns.filter (fun n => !(es.any (fun e => e.2 == n)))
      if ready.isEmpty then true
      else
        hasCycleFuel fuel (ns.filter (fun n => !(ready.contains n)))
          (es.filter (fun e => !(ready.contains e.1)))

/-- Decidable embedding of `petgraph::algo::is_cyclic_directed` on the
mesh's directed graph. -/
def TaskMesh.hasCycle (m : TaskMesh) : Bool :=
  hasCycleFuel m.nodes.length (m.nodes.map (fun t => t.id))
    (m.edges.map (fun e => (e.source, e.target)))

/-- `TaskMesh::add_dependency` from `graph.rs`: look up both endpoints,
tentatively insert the edge, then test for a cycle; on a cycle remove the
just-inserted edge (the last one, so no other petgraph indices move) and
report `CyclicDependency`. -/
def TaskMesh.addDependency (m : TaskMesh) (e : DependencyEdge) :
    Except OrchError EdgeId × TaskMesh :=
  match m.getTask e.source with
  | none => (.error (.taskNotFound e.source), m)
  | some _ =>
    match m.getTask e.target with
    | none => (.error (.taskNotFound e.target), m)
    | some _ =>
      let inserted : TaskMesh := { m with edges := m.edges ++ [e] }
      if inserted.hasCycle then
        (.error .cyclicDependency,
          { inserted with edges := inserted.edges.dropLast })
      else
        (.ok e.id, inserted)

/-- Readiness in the words of the spec, for comparison with
`TaskMesh.canExecuteTask`: the task has not yet started and every Hard
predecessor has status `Completed`; Soft, Resource and Data predecessors
do not participate. -/
def TaskMesh.specReady (m : TaskMesh) (taskId : TaskId) : Option Bool :=
  match m.getTask taskId with
  | none => none
  | some task =>
    some (task.canExecute &&
      ((m.edges.filter
          (fun e => e.target == taskId && e.dependency_type == .hard)).all
        (fun e =>
          match m.getTask e.source with
          | some dep => dep.status == .completed
          | none => true)))

/-! Circuit breaker and retry machinery from `orchestrator_core/src/errors.rs`.
Timestamps are milliseconds since the epoch (`Int`); durations are
millisecond counts (`Int` for the breaker timeout, `Nat` for backoffs);
`fastrand::f64()` becomes an explicit random input `r ∈ [0, 1)`. -/

/-- `CircuitBreakerState` from `errors.rs` (`Open` is spelled `opened`). -/
inductive BreakerState where
  | closed
  | opened (opened_at : Int) (failure_count : Nat)
  | halfOpen (opened_at : Int) (test_request_sent : Bool)
deriving DecidableEq, Repr

/-- `CircuitBreakerMetrics` from `errors.rs`. -/
structure BreakerMetrics where
  total_calls : Nat
  successful_calls : Nat
  failed_calls : Nat
  circuit_opens : Nat
  circuit_closes : Nat
deriving DecidableEq, Repr

/-- The all-zero metrics record (`CircuitBreakerMetrics::default`). -/
def BreakerMetrics.default : BreakerMetrics :=
  { total_calls := 0, successful_calls := 0, failed_calls := 0
    circuit_opens := 0, circuit_closes := 0 }

/-- The configuration of a `CircuitBreaker` from `errors.rs`:
`failure_threshold` and `timeout_duration` (ms). -/
structure BreakerCfg where
  failure_threshold : Nat
  timeout_ms : Int

/-- `CircuitBreaker::record_success` from `errors.rs`: always counts the
success; a half-open breaker closes (counting a circuit close); the
failure counter is left untouched. -/
def recordSuccess (s : BreakerState) (m : BreakerMetrics) :
    BreakerState × BreakerMetrics :=
  let m := { m with successful_calls := m.successful_calls + 1 }
  match s with
  | .halfOpen _ _ =>
    (.closed, { m with circuit_closes := m.circuit_closes + 1 })
  | st => (st, m)

/-- `CircuitBreaker::record_failure` from `errors.rs`: always counts the
failure; a closed breaker opens when the cumulative `failed_calls`
metric reaches the threshold; a half-open breaker reopens keeping its
original `opened_at`; an open breaker is unchanged. -/
def recordFailure (cfg : BreakerCfg) (now : Int) (s : BreakerState)
    (m : BreakerMetrics) : BreakerState × BreakerMetrics :=
  let m := { m with failed_calls := m.failed_calls + 1 }
  match s with
  | .closed =>
    if cfg.failure_threshold ≤ m.failed_calls then
      (.opened now m.failed_calls,
        { m with circuit_opens := m.circuit_opens + 1 })
    else (.closed, m)
  | .halfOpen opened_at _ => (.opened opened_at m.failed_calls, m)
  | st => (st, m)

/-- Outcome of the admission check at the top of `CircuitBreaker::call`:
either the call proceeds to execute the operation, or it is rejected
with an `ExternalServiceError` without executing it. -/
inductive AdmitDecision where
  | proceed
  | reject (error : OrchError)
deriving Repr

/-- The state inspection at the top of `CircuitBreaker::call`
(`errors.rs`): an open breaker past its timeout becomes half-open and
proceeds; an open breaker within the timeout rejects; a half-open breaker
with a probe in flight rejects; a half-open breaker without one marks the
probe in flight and proceeds; a closed breaker proceeds. -/
def callAdmit (cfg : BreakerCfg) (name : String) (now : Int)
    (s : BreakerState) : AdmitDecision × BreakerState :=
  match s with
  | .opened opened_at failure_count =>
    if cfg.timeout_ms < now - opened_at then
      (.proceed, .halfOpen opened_at false)
    else
      (.reject (.externalServiceError name "Circuit breaker is open"),
        .opened opened_at failure_count)
  | .halfOpen opened_at true =>
    (.reject (.externalServiceError name
        "Circuit breaker is half-open with test request pending"),
      .halfOpen opened_at true)
  | .halfOpen opened_at false => (.proceed, .halfOpen opened_at true)
  | .closed => (.proceed, .closed)

/-- The whole of `CircuitBreaker::call` as one atomic step: admission,
then (when admitted) the call counter, the operation itself — whose
success or failure is the input `opSucceeds` — and the corresponding
`record_success` / `record_failure`.  The final component records whether
the operation was executed at all. -/
def breakerCall (cfg : BreakerCfg) (name : String) (now : Int)
    (s : BreakerState) (m : BreakerMetrics) (opSucceeds : Bool) :
    BreakerState × BreakerMetrics × Bool :=
  match callAdmit cfg name now s with
  | (.reject _, s1) => (s1, m, false)
  | (.proceed, s1) =>
    let m := { m with total_calls := m.total_calls + 1 }
    if opSucceeds then
      let (s2, m2) := recordSuccess s1 m
      (s2, m2, true)
    else
      let (s2, m2) := recordFailure cfg now s1 m
      (s2, m2, true)

/-- Runs a sequence of completed calls through the breaker, oldest first;
each element gives the instant of the call and whether the operation
would succeed. -/
def breakerRun (cfg : BreakerCfg) (name : String) :
    List (Int × Bool) → BreakerState × BreakerMetrics →
    BreakerState × BreakerMetrics
  | [], sm => sm
  | (now, ok) :: rest, (s, m) =>
    let (s1, m1, _) := breakerCall cfg name now s m ok
    breakerRun cfg name rest (s1, m1)

/-- The number of consecutive failures at the end of a call sequence, as
the spec counts them (a success resets the count). -/
def consecutiveFailures (calls : List (Int × Bool)) : Nat :=
  ((calls.reverse).takeWhile (fun c => !c.2)).length

/-- `RetryInfo` from `errors.rs`: durations in milliseconds, the `f64`
fields `exponential_base` and `jitter_factor` as exact rationals. -/
structure RetryInfo where
  attempt : Nat
  max_attempts : Nat
  last_attempt_at : Int
  next_retry_at : Int
  backoff_ms : Nat
  total_ms : Nat
  exponential_base : ℚ
  jitter_factor : ℚ

/-- `RetryInfo::new` from `errors.rs` (the current time is an argument). -/
def RetryInfo.new (now : Int) (max_attempts : Nat) : RetryInfo where
  attempt := 0
  max_attempts := max_attempts
  last_attempt_at := now
  next_retry_at := now
  backoff_ms := 100
  total_ms := 0
  exponential_base := 2
  jitter_factor := 1 / 10

/-- `RetryInfo::should_retry` from `errors.rs`. -/
def RetryInfo.shouldRetry (info : RetryInfo) (now : Int) : Bool :=
  decide (info.attempt < info.max_attempts) && decide (info.next_retry_at ≤ now)

/-- `RetryInfo::record_attempt` from `errors.rs`.  `now` is `Utc::now()`
and `r ∈ [0, 1)` is the value drawn by `fastrand::f64()`.  The two
`as u64` casts of non-negative `f64` values are modelled by
`Int.toNat ∘ Int.floor` (a float-to-integer cast in Rust truncates
toward zero and saturates at 0 from below). -/
def RetryInfo.recordAttempt (info : RetryInfo) (now : Int) (r : ℚ) :
    RetryInfo :=
  let attempt := info.attempt + 1
  let baseDelay : Nat :=
    (⌊(100 : ℚ) * info.exponential_base ^ (attempt - 1)⌋).toNat
  let jitter := r * info.jitter_factor
  let jitterFactor := 1 + (jitter - info.jitter_factor / 2)
  let backoff : Nat := (⌊(baseDelay : ℚ) * jitterFactor⌋).toNat
  { info with
    attempt := attempt
    last_attempt_at := now
    backoff_ms := backoff
    next_retry_at := now + backoff
    total_ms := info.total_ms + baseDelay }

end Orch

namespace Mesh

/-- `WorkflowStrategy` from `task_mesh_core/src/types.rs`. -/
inductive WorkflowStrategy where
  | sequential
  | parallel
  | dag
deriving DecidableEq, Repr

mutual

/-- `TaskDefinition` from `task_mesh_core/src/types.rs` (`Workflow` nests
further tasks, hence the mutual definition with `Task`). -/
inductive TaskDefinition where
  | command (cmd : String)
  | pythonScript (script : String) (args : List String)
      (env : List (String × String))
  | rustFunction (function_name : String) (args : Orch.Json)
  | httpRequest (method url : String) (headers : List (String × String))
      (body : Option String)
  | workflow (tasks : List Task) (execution_strategy : WorkflowStrategy)

/-- `Task` from `task_mesh_core/src/types.rs` (timestamps in ms as `Int`,
timeout in ms as `Nat`); fields in declaration order: id, name,
definition, dependencies, priority, metadata, created_at, timeout,
max_retries, tags. -/
inductive Task where
  | mk (id : TaskId) (name : String) (definition : TaskDefinition)
      (dependencies : List TaskId) (priority : Nat)
      (metadata : List (String × String)) (created_at : Int)
      (timeout : Option Nat) (max_retries : Nat) (tags : List String)

end

/-- The `id` field of a `Task`. -/
def Task.id : Task → TaskId
  | .mk id _ _ _ _ _ _ _ _ _ => id

/-- `ExecutionMetrics` from `task_mesh_core/src/types.rs`. -/
structure ExecutionMetrics where
  execution_time_ms : Nat
  cpu_usage : ℚ
  memory_usage : Nat
  network_io : Nat × Nat
  disk_io : Nat × Nat

/-- `TaskResult` from `task_mesh_core/src/types.rs`. -/
structure TaskResult where
  exit_code : Int
  stdout : String
  stderr : String
  output_data : Option Orch.Json
  metrics : ExecutionMetrics

/-- `TaskStatus` from `task_mesh_core/src/types.rs` (the variant payloads
are carried verbatim). -/
inductive TaskStatus where
  | pending
  | scheduled
  | running (started_at : Int) (worker_id : String)
  | completed (started_at completed_at : Int) (result : TaskResult)
  | failed (started_at failed_at : Int) (error : String) (retry_count : Nat)
  | cancelled (cancelled_at : Int) (reason : String)
  | paused (paused_at : Int) (reason : String)

/-- `ResourceAllocation` from `task_mesh_core/src/types.rs`
(`cpu_cores : f64` as `ℚ`). -/
structure ResourceAllocation where
  cpu_cores : ℚ
  memory_bytes : Nat
  time_limit : Option Nat
  scheduling_priority : Nat

/-- `ResourceAllocation::default` from `types.rs`. -/
def ResourceAllocation.default : ResourceAllocation where
  cpu_cores := 1
  memory_bytes := 1024 * 1024 * 1024
  time_limit := some 3600000
  scheduling_priority := 50

/-- `TaskMeshError` variants reached by the embedded operations
(`types.rs`). -/
inductive MeshError where
  | taskNotFound (id : TaskId)
  | checkpointNotFound (id : String)
  | internalError (msg : String)
deriving Repr

/-! Scheduler from `task_mesh_core/src/scheduler.rs`.  The binary heap of
`ScheduleItem`s, ordered solely by `priority_score`, is modelled by a
list together with `popMax`, which removes a maximal-score element (the
heap leaves the order among equal scores unspecified; `popMax` commits
to the first maximal element). -/

/-- `ScheduleItem` from `scheduler.rs` (`priority_score : f64` as `ℚ`). -/
structure ScheduleItem where
  task_id : TaskId
  priority_score : ℚ
  estimated_ms : Nat
  deadline : Option Int
  resource_requirements : ResourceAllocation

/-- Pop of the schedule heap: removes the first element of maximal
`priority_score`. -/
def popMax : List ScheduleItem → Option (ScheduleItem × List ScheduleItem)
  | [] => none
  | x :: xs =>
    match popMax xs with
    | none => some (x, [])
    | some (m, rest) =>
      if x.priority_score < m.priority_score then some (m, x :: rest)
      else some (x, xs)

/-- The scheduler state used by `get_next_task`: the schedule queue and
the dependency digraph (`DiGraph<TaskId, ()>` as an edge list, an edge
`(a, b)` meaning `a` must run before `b`). -/
structure SchedState where
  queue : List ScheduleItem
  dependency_graph : List (TaskId × TaskId)

/-- `Scheduler::can_execute_with_resources` from `scheduler.rs`. -/
def canExecuteWithResources (item : ScheduleItem)
    (available : ResourceAllocation) : Bool :=
  decide (item.resource_requirements.cpu_cores ≤ available.cpu_cores) &&
  decide (item.resource_requirements.memory_bytes ≤ available.memory_bytes)

/-- `Scheduler::dependencies_satisfied` from `scheduler.rs`: the source
ignores both the scheduler state and the task id and returns `true`
unconditionally (its body is a TODO stub). -/
def dependenciesSatisfied (_s : SchedState) (_taskId : TaskId) : Bool :=
  true

/-- The pop-scan-restore loop of `Scheduler::get_next_task`: pop items in
score order; the first one passing the resource check and the dependency
check is selected (and stays removed); every other popped item goes to a
temporary heap that is pushed back at the end.  `fuel` bounds the loop by
the queue length. -/
def getNextTaskLoop (s : SchedState) (available : ResourceAllocation) :
    Nat → List ScheduleItem → List ScheduleItem →
    Option TaskId × List ScheduleItem
  | 0, q, temp => (none, temp ++ q)
  | fuel + 1, q, temp =>
    match popMax q with
    | none => (none, temp ++ q)
    | some (item, q1) =>
      if canExecuteWithResources item available then
        if dependenciesSatisfied s item.task_id then
          (some item.task_id, temp ++ q1)
        else getNextTaskLoop s available fuel q1 (item :: temp)
      else getNextTaskLoop s available fuel q1 (item :: temp)

/-- `Scheduler::get_next_task` from `scheduler.rs`: returns the selected
task id (if any) and the queue as left behind (selected item removed,
all others restored). -/
def getNextTask (s : SchedState) (available : ResourceAllocation) :
    Option TaskId × List ScheduleItem :=
  getNextTaskLoop s available s.queue.length s.queue []

/-- Modelled from the spec: the dependency check that
`Scheduler::dependencies_satisfied` is documented to perform but leaves
unimplemented — "pops the highest-scoring item whose (a) Hard
predecessors are all `Completed`"; `statuses` is the durable task-status
map consulted for each predecessor recorded in the dependency graph. -/
def specDependenciesSatisfied (statuses : List (TaskId × TaskStatus))
    (s : SchedState) (taskId : TaskId) : Bool :=
  (s.dependency_graph.filter (fun e => e.2 == taskId)).all
    (fun e =>
      match statuses.lookup e.1 with
      | some (.completed _ _ _) => true
      | _ => false)

/-! State stores from `task_mesh_core/src/state_store.rs`.  The three
bindings keep their own state shapes.  JSON / bincode (de)serialization
of the stored values is performed by external libraries and is modelled
by storing the values themselves; uuid-to-string key formatting is
injective, so rows keyed by `id.to_string()` are keyed by the id. -/

/-- `CheckpointData` from `state_store.rs`. -/
structure CheckpointData where
  tasks : List Task
  created_at : Int

/-- `MemoryStateStore` from `state_store.rs`.  The `events` and `metrics`
maps are untouched by every operation modelled here and are omitted. -/
structure MemoryStateStore where
  tasks : List (TaskId × Task)
  task_status : List (TaskId × TaskStatus)
  checkpoints : List (String × CheckpointData)

/-- `MemoryStateStore::new`. -/
def MemoryStateStore.new : MemoryStateStore :=
  { tasks := [], task_status := [], checkpoints := [] }

/-- `MemoryStateStore::store_task` (always `Ok` in the source; the pure
state transition is given here and wrapped where the `Result` matters). -/
def MemoryStateStore.storeTask (s : MemoryStateStore) (t : Task) :
    MemoryStateStore :=
  { s with tasks := insertReplace s.tasks t.id t }

/-- `MemoryStateStore::update_task_status`. -/
def MemoryStateStore.updateTaskStatus (s : MemoryStateStore) (id : TaskId)
    (status : TaskStatus) : MemoryStateStore :=
  { s with task_status := insertReplace s.task_status id status }

/-- `MemoryStateStore::remove_task`. -/
def MemoryStateStore.removeTask (s : MemoryStateStore) (id : TaskId) :
    MemoryStateStore :=
  { s with tasks := eraseKey s.tasks id
           task_status := eraseKey s.task_status id }

/-- `MemoryStateStore::get_task_status`: an absent entry reads as
`Pending`. -/
def MemoryStateStore.getTaskStatus (s : MemoryStateStore) (id : TaskId) :
    Except MeshError TaskStatus :=
  .ok ((s.task_status.lookup id).getD .pending)

/-- `MemoryStateStore::list_tasks` (`HashMap::values` in insertion
order). -/
def MemoryStateStore.listTasks (s : MemoryStateStore) : List Task :=
  s.tasks.map Prod.snd

/-- `MemoryStateStore::create_checkpoint`: captures `list_tasks`
(bincode-serialized in the source) under the checkpoint id. -/
def MemoryStateStore.createCheckpoint (s : MemoryStateStore)
    (cid : String) (now : Int) : MemoryStateStore :=
  { s with
      checkpoints :=
        insertReplace s.checkpoints cid
          ({ tasks := s.listTasks, created_at := now }) }

/-- `MemoryStateStore::restore_checkpoint`: unknown id errors; otherwise
clear the task map and the whole status map, then re-store every
checkpointed task. -/
def MemoryStateStore.restoreCheckpoint (s : MemoryStateStore)
    (cid : String) : Except MeshError MemoryStateStore :=
  match s.checkpoints.lookup cid with
  | none => .error (.checkpointNotFound cid)
  | some d =>
    let cleared := { s with tasks := [], task_status := [] }
    .ok (d.tasks.foldl (fun acc t => acc.storeTask t) cleared)

/-- `SqliteStateStore::status_to_type` from `state_store.rs`. -/
def statusToType : TaskStatus → String
  | .pending => "Pending"
  | .scheduled => "Scheduled"
  | .running _ _ => "Running"
  | .completed _ _ _ => "Completed"
  | .failed _ _ _ _ => "Failed"
  | .cancelled _ _ => "Cancelled"
  | .paused _ _ => "Paused"

/-- A row of the SQLite `task_status` table: `status_data` holds the
serde-JSON of the status and is modelled by the status itself. -/
structure StatusRow where
  status_type : String
  status_data : TaskStatus
  updated_at : Int

/-- Stable insertion sort by descending `created_at`, modelling
`ORDER BY created_at DESC` of `list_tasks`. -/
def insertByCreatedDesc (t : Task) : List Task → List Task
  | [] => [t]
  | u :: rest =>
    match t, u with
    | .mk _ _ _ _ _ _ tc _ _ _, .mk _ _ _ _ _ _ uc _ _ _ =>
      if uc ≤ tc ∧ ¬ tc ≤ uc then t :: u :: rest
      else u :: insertByCreatedDesc t rest

/-- `SqliteStateStore` from `state_store.rs`: the `tasks` and
`task_status` tables keyed by the id column, and the `checkpoints` table
(id, bincode data — modelled by the value — and `created_at`).  The
`events` and `metrics` tables are untouched by the modelled operations
and omitted. -/
structure SqliteStateStore where
  tasks : List (TaskId × Task)
  task_status : List (TaskId × StatusRow)
  checkpoints : List (String × CheckpointData × Int)

/-- `SqliteStateStore::store_task` (`INSERT OR REPLACE INTO tasks`). -/
def SqliteStateStore.storeTask (s : SqliteStateStore) (t : Task) :
    SqliteStateStore :=
  { s with tasks := insertReplace s.tasks t.id t }

/-- `SqliteStateStore::update_task_status`
(`INSERT OR REPLACE INTO task_status`). -/
def SqliteStateStore.updateTaskStatus (s : SqliteStateStore) (id : TaskId)
    (status : TaskStatus) (now : Int) : SqliteStateStore :=
  { s with
      task_status :=
        insertReplace s.task_status id
          ({ status_type := statusToType status
             status_data := status
             updated_at := now }) }

/-- `SqliteStateStore::get_task_status`: a missing row reads as
`Pending`, otherwise `status_data` is deserialized. -/
def SqliteStateStore.getTaskStatus (s : SqliteStateStore) (id : TaskId) :
    Except MeshError TaskStatus :=
  match s.task_status.lookup id with
  | some row => .ok row.status_data
  | none => .ok .pending

/-- `SqliteStateStore::list_tasks` (`ORDER BY created_at DESC`). -/
def SqliteStateStore.listTasks (s : SqliteStateStore) : List Task :=
  (s.tasks.map Prod.snd).foldr insertByCreatedDesc []

/-- `SqliteStateStore::create_checkpoint`. -/
def SqliteStateStore.createCheckpoint (s : SqliteStateStore)
    (cid : String) (now : Int) : SqliteStateStore :=
  { s with
      checkpoints :=
        insertReplace s.checkpoints cid
          (({ tasks := s.listTasks, created_at := now }), now) }

/-- `SqliteStateStore::restore_checkpoint`: unknown id errors; otherwise
`DELETE FROM tasks`, `DELETE FROM task_status`, then `store_task` for
every checkpointed task. -/
def SqliteStateStore.restoreCheckpoint (s : SqliteStateStore)
    (cid : String) : Except MeshError SqliteStateStore :=
  match s.checkpoints.lookup cid with
  | none => .error (.checkpointNotFound cid)
  | some (d, _) =>
    let cleared := { s with tasks := [], task_status := [] }
    .ok (d.tasks.foldl (fun acc t => acc.storeTask t) cleared)

/-- `RedisStateStore` from `state_store.rs`: the `task:{id}` and
`status:{id}` key families as maps keyed by the id, the `tasks:all` and
`checkpoints:all` index sets, and the `checkpoint:{id}` keys.  Event and
metric keys are untouched by the modelled operations and omitted. -/
structure RedisStateStore where
  kv_tasks : List (TaskId × Task)
  kv_status : List (TaskId × TaskStatus)
  tasks_all : List TaskId
  kv_checkpoints : List (String × CheckpointData)
  checkpoints_all : List String

/-- `sadd`: add to a Redis set (no duplicates). -/
def saddId (l : List TaskId) (id : TaskId) : List TaskId :=
  if l.contains id then l else l ++ [id]

/-- `RedisStateStore::store_task`: `SET task:{id}` plus
`SADD tasks:all`. -/
def RedisStateStore.storeTask (s : RedisStateStore) (t : Task) :
    RedisStateStore :=
  { s with kv_tasks := insertReplace s.kv_tasks t.id t
           tasks_all := saddId s.tasks_all t.id }

/-- `RedisStateStore::update_task_status`: `SET status:{id}` (no
existence check). -/
def RedisStateStore.updateTaskStatus (s : RedisStateStore) (id : TaskId)
    (status : TaskStatus) : RedisStateStore :=
  { s with kv_status := insertReplace s.kv_status id status }

/-- `RedisStateStore::remove_task`: `DEL task:{id}`, `DEL status:{id}`,
`SREM tasks:all`. -/
def RedisStateStore.removeTask (s : RedisStateStore) (id : TaskId) :
    RedisStateStore :=
  { s with kv_tasks := eraseKey s.kv_tasks id
           kv_status := eraseKey s.kv_status id
           tasks_all := s.tasks_all.filter (fun x => !(x == id)) }

/-- `RedisStateStore::get_task_status`: a missing `status:{id}` key reads
as `Pending`. -/
def RedisStateStore.getTaskStatus (s : RedisStateStore) (id : TaskId) :
    Except MeshError TaskStatus :=
  .ok ((s.kv_status.lookup id).getD .pending)

/-- `RedisStateStore::list_tasks`: every id in `tasks:all` whose
`task:{id}` key parses. -/
def RedisStateStore.listTasks (s : RedisStateStore) : List Task :=
  s.tasks_all.filterMap (fun id => s.kv_tasks.lookup id)

/-- `RedisStateStore::create_checkpoint`. -/
def RedisStateStore.createCheckpoint (s : RedisStateStore) (cid : String)
    (now : Int) : RedisStateStore :=
  { s with
      kv_checkpoints :=
        insertReplace s.kv_checkpoints cid
          ({ tasks := s.listTasks, created_at := now })
      checkpoints_all :=
        if s.checkpoints_all.contains cid then s.checkpoints_all
        else s.checkpoints_all ++ [cid] }

/-- `RedisStateStore::restore_checkpoint`: unknown id errors; otherwise
`remove_task` for every id currently in `tasks:all` — and only those —
then `store_task` for every checkpointed task.  Status keys of ids not
in the index are left behind. -/
def RedisStateStore.restoreCheckpoint (s : RedisStateStore)
    (cid : String) : Except MeshError RedisStateStore :=
  match s.kv_checkpoints.lookup cid with
  | none => .error (.checkpointNotFound cid)
  | some d =>
    let cleared := s.tasks_all.foldl (fun acc id => acc.removeTask id) s
    .ok (d.tasks.foldl (fun acc t => acc.storeTask t) cleared)

end Mesh

namespace Orch

/-! JSON codec for the orchestrator data model, used by the snapshot
engine (`backup.rs` serializes a `TaskGraphSnapshot` with `serde_json`).
Encoders produce the canonical field-ordered object for each structure;
decoders accept that canonical shape. -/

/-- serde encoding of an integer. -/
def encodeInt (n : Int) : Json := .num n

/-- serde decoding of an integer. -/
def decodeInt : Json → Option Int
  | .num q => if q.den = 1 then some q.num else none
  | _ => none

/-- serde encoding of an unsigned integer. -/
def encodeNat (n : Nat) : Json := .num n

/-- serde decoding of an unsigned integer. -/
def decodeNat : Json → Option Nat
  | .num q => if q.den = 1 ∧ 0 ≤ q.num then some q.num.toNat else none
  | _ => none

/-- serde encoding of an `f64` (modelled by `ℚ`). -/
def encodeRat (q : ℚ) : Json := .num q

/-- serde decoding of an `f64`. -/
def decodeRat : Json → Option ℚ
  | .num q => some q
  | _ => none

/-- serde encoding of a string. -/
def encodeString (s : String) : Json := .str s

/-- serde decoding of a string. -/
def decodeString : Json → Option String
  | .str s => some s
  | _ => none

/-- serde encoding of an `Option` (`None` is `null`). -/
def encodeOpt {α : Type} (f : α → Json) : Option α → Json
  | none => .null
  | some a => f a

/-- serde decoding of an `Option`. -/
def decodeOpt {α : Type} (g : Json → Option α) : Json → Option (Option α)
  | .null => some none
  | j => (g j).map some

/-- serde encoding of a `Vec`. -/
def encodeList {α : Type} (f : α → Json) (l : List α) : Json :=
  .arr (l.map f)

/-- Element-wise decoding of a JSON array's members (serde sequence
deserialization: the first failing element fails the whole list). -/
def decodeEach {α : Type} (g : Json → Option α) : List Json → Option (List α)
  | [] => some []
  | j :: js => do
    let a ← g j
    let as ← decodeEach g js
    some (a :: as)

/-- serde decoding of a `Vec`. -/
def decodeList {α : Type} (g : Json → Option α) : Json → Option (List α)
  | .arr xs => decodeEach g xs
  | _ => none

/-- serde encoding of a `HashMap<String, Value>`. -/
def encodeJsonMap (l : List (String × Json)) : Json := .obj l

/-- serde decoding of a `HashMap<String, Value>`. -/
def decodeJsonMap : Json → Option (List (String × Json))
  | .obj fs => some fs
  | _ => none

/-- serde encoding of `TaskStatus` (unit enum variants become their
names). -/
def encodeStatus : TaskStatus → Json
  | .pending => .str "Pending"
  | .waiting => .str "Waiting"
  | .running => .str "Running"
  | .completed => .str "Completed"
  | .failed => .str "Failed"
  | .cancelled => .str "Cancelled"
  | .paused => .str "Paused"

/-- serde decoding of `TaskStatus`. -/
def decodeStatus : Json → Option TaskStatus
  | .str "Pending" => some .pending
  | .str "Waiting" => some .waiting
  | .str "Running" => some .running
  | .str "Completed" => some .completed
  | .str "Failed" => some .failed
  | .str "Cancelled" => some .cancelled
  | .str "Paused" => some .paused
  | _ => none

/-- serde encoding of `TaskPriority`. -/
def encodePriority : TaskPriority → Json
  | .low => .str "Low"
  | .medium => .str "Medium"
  | .high => .str "High"
  | .critical => .str "Critical"

/-- serde decoding of `TaskPriority`. -/
def decodePriority : Json → Option TaskPriority
  | .str "Low" => some .low
  | .str "Medium" => some .medium
  | .str "High" => some .high
  | .str "Critical" => some .critical
  | _ => none

/-- serde encoding of `TaskType`. -/
def encodeTaskType : TaskType → Json
  | .small => .str "Small"
  | .medium => .str "Medium"
  | .large => .str "Large"
  | .extraLarge => .str "ExtraLarge"

/-- serde decoding of `TaskType`. -/
def decodeTaskType : Json → Option TaskType
  | .str "Small" => some .small
  | .str "Medium" => some .medium
  | .str "Large" => some .large
  | .str "ExtraLarge" => some .extraLarge
  | _ => none

/-- serde encoding of `ExecutionLayer`. -/
def encodeLayer : ExecutionLayer → Json
  | .local => .str "Local"
  | .cluster => .str "Cluster"
  | .quantumSim => .str "QuantumSim"

/-- serde decoding of `ExecutionLayer`. -/
def decodeLayer : Json → Option ExecutionLayer
  | .str "Local" => some .local
  | .str "Cluster" => some .cluster
  | .str "QuantumSim" => some .quantumSim
  | _ => none

/-- serde encoding of `DependencyType`. -/
def encodeDepType : DependencyType → Json
  | .hard => .str "Hard"
  | .soft => .str "Soft"
  | .resource => .str "Resource"
  | .data => .str "Data"

/-- serde decoding of `DependencyType`. -/
def decodeDepType : Json → Option DependencyType
  | .str "Hard" => some .hard
  | .str "Soft" => some .soft
  | .str "Resource" => some .resource
  | .str "Data" => some .data
  | _ => none

/-- serde encoding of `TaskMetrics` (fields in declaration order). -/
def encodeMetrics (m : TaskMetrics) : Json :=
  .obj [("start_time", encodeOpt encodeInt m.start_time),
        ("end_time", encodeOpt encodeInt m.end_time),
        ("cpu_usage", encodeRat m.cpu_usage),
        ("memory_usage", encodeRat m.memory_usage),
        ("network_usage", encodeRat m.network_usage),
        ("execution_layer", encodeLayer m.execution_layer),
        ("retry_count", encodeNat m.retry_count),
        ("error_messages", encodeList encodeString m.error_messages)]

/-- serde decoding of `TaskMetrics`. -/
def decodeMetrics : Json → Option TaskMetrics
  | .obj [("start_time", a), ("end_time", b), ("cpu_usage", c),
          ("memory_usage", d), ("network_usage", e),
          ("execution_layer", f), ("retry_count", g),
          ("error_messages", h)] => do
    let st ← decodeOpt decodeInt a
    let et ← decodeOpt decodeInt b
    let cu ← decodeRat c
    let mu ← decodeRat d
    let nu ← decodeRat e
    let el ← decodeLayer f
    let rc ← decodeNat g
    let em ← decodeList decodeString h
    some ⟨st, et, cu, mu, nu, el, rc, em⟩
  | _ => none

/-- serde encoding of `TaskNode` (fields in declaration order). -/
def encodeNode (t : TaskNode) : Json :=
  .obj [("id", encodeNat t.id),
        ("name", encodeString t.name),
        ("description", encodeOpt encodeString t.description),
        ("status", encodeStatus t.status),
        ("priority", encodePriority t.priority),
        ("task_type", encodeTaskType t.task_type),
        ("tags", encodeList encodeString t.tags),
        ("components", encodeList encodeString t.components),
        ("created_at", encodeInt t.created_at),
        ("updated_at", encodeInt t.updated_at),
        ("scheduled_at", encodeOpt encodeInt t.scheduled_at),
        ("deadline", encodeOpt encodeInt t.deadline),
        ("metrics", encodeMetrics t.metrics),
        ("configuration", encodeJsonMap t.configuration),
        ("execution_context", encodeJsonMap t.execution_context)]

/-- Consume the expected next field of a serialized struct: the head
binding must carry the given name; its payload and the remaining
bindings are returned. -/
def expectField (name : String) :
    List (String × Json) → Option (Json × List (String × Json))
  | (k, v) :: rest => if k == name then some (v, rest) else none
  | [] => none

/-- Last stage of the node decoder: the metrics, configuration and
execution-context fields. -/
def decodeNodeD (id : Nat) (name : String) (description : Option String)
    (status : TaskStatus) (priority : TaskPriority) (taskType : TaskType)
    (tags components : List String) (createdAt updatedAt : Int)
    (scheduledAt deadline : Option Int) (f : List (String × Json)) :
    Option TaskNode := do
  let (j13, f13) ← expectField "metrics" f
  let (j14, f14) ← expectField "configuration" f13
  let (j15, _) ← expectField "execution_context" f14
  let metrics ← decodeMetrics j13
  let configuration ← decodeJsonMap j14
  let executionContext ← decodeJsonMap j15
  some ⟨id, name, description, status, priority, taskType, tags,
        components, createdAt, updatedAt, scheduledAt, deadline,
        metrics, configuration, executionContext⟩

/-- Third stage of the node decoder: the four timestamp fields. -/
def decodeNodeC (id : Nat) (name : String) (description : Option String)
    (status : TaskStatus) (priority : TaskPriority) (taskType : TaskType)
    (tags components : List String) (f : List (String × Json)) :
    Option TaskNode := do
  let (j9, f9) ← expectField "created_at" f
  let (j10, f10) ← expectField "updated_at" f9
  let (j11, f11) ← expectField "scheduled_at" f10
  let (j12, f12) ← expectField "deadline" f11
  let createdAt ← decodeInt j9
  let updatedAt ← decodeInt j10
  let scheduledAt ← decodeOpt decodeInt j11
  let deadline ← decodeOpt decodeInt j12
  decodeNodeD id name description status priority taskType tags
    components createdAt updatedAt scheduledAt deadline f12

/-- Second stage of the node decoder: priority, task type, tags and
components. -/
def decodeNodeB (id : Nat) (name : String) (description : Option String)
    (status : TaskStatus) (f : List (String × Json)) : Option TaskNode := do
  let (j5, f5) ← expectField "priority" f
  let (j6, f6) ← expectField "task_type" f5
  let (j7, f7) ← expectField "tags" f6
  let (j8, f8) ← expectField "components" f7
  let priority ← decodePriority j5
  let taskType ← decodeTaskType j6
  let tags ← decodeList decodeString j7
  let components ← decodeList decodeString j8
  decodeNodeC id name description status priority taskType tags
    components f8

/-- First stage of the node decoder: id, name, description and status. -/
def decodeNodeA (f : List (String × Json)) : Option TaskNode := do
  let (j1, f1) ← expectField "id" f
  let (j2, f2) ← expectField "name" f1
  let (j3, f3) ← expectField "description" f2
  let (j4, f4) ← expectField "status" f3
  let id ← decodeNat j1
  let name ← decodeString j2
  let description ← decodeOpt decodeString j3
  let status ← decodeStatus j4
  decodeNodeB id name description status f4

/-- serde decoding of `TaskNode`: the canonical field sequence is
consumed in declaration order (staged to keep each reduction small). -/
def decodeNode (j : Json) : Option TaskNode :=
  (decodeJsonMap j).bind decodeNodeA

/-- serde encoding of `DependencyEdge` (fields in declaration order). -/
def encodeEdge (e : DependencyEdge) : Json :=
  .obj [("id", encodeNat e.id),
        ("source", encodeNat e.source),
        ("target", encodeNat e.target),
        ("dependency_type", encodeDepType e.dependency_type),
        ("weight", encodeRat e.weight),
        ("metadata", encodeJsonMap e.metadata),
        ("created_at", encodeInt e.created_at)]

/-- serde decoding of `DependencyEdge`. -/
def decodeEdge : Json → Option DependencyEdge
  | .obj [("id", j1), ("source", j2), ("target", j3),
          ("dependency_type", j4), ("weight", j5), ("metadata", j6),
          ("created_at", j7)] => do
    let id ← decodeNat j1
    let source ← decodeNat j2
    let target ← decodeNat j3
    let depType ← decodeDepType j4
    let weight ← decodeRat j5
    let metadata ← decodeJsonMap j6
    let createdAt ← decodeInt j7
    some ⟨id, source, target, depType, weight, metadata, createdAt⟩
  | _ => none

/-- Modelled from the spec: `TaskMesh` has no `Serialize` impl under
`src/` (the snapshot engine serializes it nonetheless), so the "full
serialized mesh" of §4.G is modelled as the deterministic object holding
the task list and the edge list. -/
def encodeMesh (m : TaskMesh) : Json :=
  .obj [("tasks", encodeList encodeNode m.nodes),
        ("edges", encodeList encodeEdge m.edges)]

/-- Modelled from the spec: decoder for the serialized mesh. -/
def decodeMesh : Json → Option TaskMesh
  | .obj [("tasks", j1), ("edges", j2)] => do
    let nodes ← decodeList decodeNode j1
    let edges ← decodeList decodeEdge j2
    some ⟨nodes, edges⟩
  | _ => none

/-- `SnapshotMetadata` from `backup.rs`. -/
structure SnapshotMetadata where
  total_tasks : Nat
  completed_tasks : Nat
  failed_tasks : Nat
  running_tasks : Nat
  compression_ratio : Option ℚ
  size_bytes : Nat

/-- `TaskGraphSnapshot` from `backup.rs`; the `SystemMetrics` record is
carried as an opaque JSON value (no claim inspects it). -/
structure TaskGraphSnapshot where
  id : Nat
  timestamp : Int
  version : String
  task_graph : TaskMesh
  system_metrics : Json
  metadata : SnapshotMetadata

/-- serde encoding of `SnapshotMetadata`. -/
def encodeSnapshotMetadata (m : SnapshotMetadata) : Json :=
  .obj [("total_tasks", encodeNat m.total_tasks),
        ("completed_tasks", encodeNat m.completed_tasks),
        ("failed_tasks", encodeNat m.failed_tasks),
        ("running_tasks", encodeNat m.running_tasks),
        ("compression_ratio", encodeOpt encodeRat m.compression_ratio),
        ("size_bytes", encodeNat m.size_bytes)]

/-- serde decoding of `SnapshotMetadata`. -/
def decodeSnapshotMetadata : Json → Option SnapshotMetadata
  | .obj [("total_tasks", j1), ("completed_tasks", j2),
          ("failed_tasks", j3), ("running_tasks", j4),
          ("compression_ratio", j5), ("size_bytes", j6)] => do
    let total ← decodeNat j1
    let completed ← decodeNat j2
    let failed ← decodeNat j3
    let running ← decodeNat j4
    let ratio ← decodeOpt decodeRat j5
    let size ← decodeNat j6
    some ⟨total, completed, failed, running, ratio, size⟩
  | _ => none

/-- serde encoding of `TaskGraphSnapshot`. -/
def encodeSnapshot (s : TaskGraphSnapshot) : Json :=
  .obj [("id", encodeNat s.id),
        ("timestamp", encodeInt s.timestamp),
        ("version", encodeString s.version),
        ("task_graph", encodeMesh s.task_graph),
        ("system_metrics", s.system_metrics),
        ("metadata", encodeSnapshotMetadata s.metadata)]

/-- serde decoding of `TaskGraphSnapshot`. -/
def decodeSnapshot : Json → Option TaskGraphSnapshot
  | .obj [("id", j1), ("timestamp", j2), ("version", j3),
          ("task_graph", j4), ("system_metrics", j5),
          ("metadata", j6)] => do
    let id ← decodeNat j1
    let timestamp ← decodeInt j2
    let version ← decodeString j3
    let graph ← decodeMesh j4
    let metadata ← decodeSnapshotMetadata j6
    some ⟨id, timestamp, version, graph, j5, metadata⟩
  | _ => none

/-! The snapshot/checkpoint engine of `orchestrator_core/src/backup.rs`.
The MinIO object store becomes a key–payload association list (payloads
are the serialized, possibly compressed, JSON values), the SQLite
`snapshot_metadata` and `checkpoints` tables become lists of rows, and
gzip compression is an arbitrary function pair supplied by the caller
(`flate2` is an external library; the theorems assume only that
decompression inverts compression). -/

/-- `SnapshotConfig` from `backup.rs`. -/
structure SnapshotConfig where
  interval_seconds : Nat
  max_snapshots : Nat
  compression_enabled : Bool
  snapshot_prefix : String

/-- `CheckpointConfig` from `backup.rs`. -/
structure CheckpointConfig where
  tasks_per_checkpoint : Nat
  retention_days : Nat
  auto_cleanup : Bool

/-- `SystemState` from `backup.rs`. -/
structure SystemState where
  active_tasks : List TaskId
  pending_tasks : List TaskId
  failed_tasks : List TaskId
  resource_usage : List (String × ℚ)
  configuration_hash : String
deriving Repr

/-- `BackupSystem::collect_system_state` from `backup.rs` (a fixed basic
state in the source). -/
def collectSystemState : SystemState :=
  { active_tasks := [], pending_tasks := [], failed_tasks := []
    resource_usage := [], configuration_hash := "placeholder" }

/-- `LocalCheckpoint` from `backup.rs`. -/
structure LocalCheckpoint where
  id : Nat
  timestamp : Int
  task_count : Nat
  last_completed_task : Option TaskId
  system_state : SystemState
  recovery_data : List (String × Json)

/-- A row of the `snapshot_metadata` table (the columns consulted by
restore and cleanup). -/
structure MetaRow where
  id : Nat
  minio_key : String
  timestamp : Int

/-- The persistent and in-memory state of `BackupSystem`: the completed
task counter, the MinIO bucket, and the two SQLite tables. -/
structure BackupState where
  completed_tasks_count : Nat
  object_store : List (String × Json)
  snapshot_meta : List MetaRow
  checkpoints : List LocalCheckpoint

/-- Stable insertion by descending `timestamp` (used for
`ORDER BY timestamp DESC`). -/
def insertRowByTsDesc (r : MetaRow) : List MetaRow → List MetaRow
  | [] => [r]
  | x :: rest =>
    if x.timestamp < r.timestamp then r :: x :: rest
    else x :: insertRowByTsDesc r rest

/-- `ORDER BY timestamp DESC` over the metadata rows. -/
def sortRowsByTsDesc (l : List MetaRow) : List MetaRow :=
  l.foldr insertRowByTsDesc []

/-- `SELECT ... ORDER BY timestamp DESC LIMIT 1` over the metadata
rows. -/
def selectLatestRow : List MetaRow → Option MetaRow
  | [] => none
  | r :: rest =>
    match selectLatestRow rest with
    | none => some r
    | some m => if r.timestamp < m.timestamp then some m else some r

/-- `SELECT ... ORDER BY timestamp DESC LIMIT 1` over the checkpoint
rows. -/
def selectLatestCp : List LocalCheckpoint → Option LocalCheckpoint
  | [] => none
  | c :: rest =>
    match selectLatestCp rest with
    | none => some c
    | some m => if c.timestamp < m.timestamp then some m else some c

/-- `key.ends_with(".gz")`, spelt over the character list of the key. -/
def endsWithGz (key : String) : Bool :=
  key.data.reverse.take 3 == (".gz").data.reverse

/-- `BackupSystem::cleanup_old_snapshots` from `backup.rs`: the rows
past the first `max_snapshots` in timestamp-descending order are deleted
from MinIO and from the metadata table. -/
def cleanupOldSnapshots (cfg : SnapshotConfig) (st : BackupState) :
    BackupState :=
  let doomed := (sortRowsByTsDesc st.snapshot_meta).drop cfg.max_snapshots
  { st with
      object_store :=
        doomed.foldl (fun acc r => eraseKey acc r.minio_key) st.object_store
      snapshot_meta :=
        st.snapshot_meta.filter
          (fun r => !((doomed.map (fun d => d.id)).contains r.id)) }

/-- `BackupSystem::calculate_snapshot_metadata` from `backup.rs`. -/
def calculateSnapshotMetadata (mesh : TaskMesh) : SnapshotMetadata where
  total_tasks := mesh.nodes.length
  completed_tasks := mesh.nodes.countP (fun t => t.status == .completed)
  failed_tasks := mesh.nodes.countP (fun t => t.status == .failed)
  running_tasks := mesh.nodes.countP (fun t => t.status == .running)
  compression_ratio := none
  size_bytes := 0

/-- The MinIO object key generated by `create_snapshot`
(`{prefix}/snapshot_{timestamp}_{uuid}.json[.gz]`; the source formats the
timestamp as `%Y%m%d_%H%M%S`, an injective rendering modelled by
`toString`). -/
def snapshotKey (cfg : SnapshotConfig) (sid : Nat) (ts : Int) : String :=
  cfg.snapshot_prefix ++ "/snapshot_" ++ toString ts ++ "_" ++
    toString sid ++ ".json" ++
    (if cfg.compression_enabled then ".gz" else "")

/-- `BackupSystem::create_snapshot` from `backup.rs`: build the snapshot,
serialize it, compress when enabled, PUT it to MinIO under the generated
key (`.gz`-suffixed exactly when compressed), INSERT the metadata row,
and finally run the retention cleanup.  The fresh uuid `sid` and the
current time `ts` are arguments, as is the gzip encoder. -/
def createSnapshot (cfg : SnapshotConfig) (compress : Json → Json)
    (st : BackupState) (mesh : TaskMesh) (systemMetrics : Json)
    (sid : Nat) (ts : Int) (version : String) :
    BackupState × TaskGraphSnapshot :=
  let snap : TaskGraphSnapshot :=
    { id := sid, timestamp := ts, version := version, task_graph := mesh
      system_metrics := systemMetrics
      metadata := calculateSnapshotMetadata mesh }
  let payload := encodeSnapshot snap
  let finalPayload :=
    if cfg.compression_enabled then compress payload else payload
  let key := snapshotKey cfg sid ts
  let st :=
    { st with
        object_store := (key, finalPayload) :: st.object_store
        snapshot_meta :=
          ({ id := sid, minio_key := key, timestamp := ts } : MetaRow) ::
            st.snapshot_meta }
  (cleanupOldSnapshots cfg st, snap)

/-- `BackupSystem::restore_latest_snapshot` from `backup.rs`: take the
newest metadata row, GET its key from MinIO, decompress when the key ends
in `.gz`, and deserialize.  Any missing piece is a restore failure
(`none`). -/
def restoreLatestSnapshot (decompress : Json → Json) (st : BackupState) :
    Option TaskGraphSnapshot :=
  match selectLatestRow st.snapshot_meta with
  | none => none
  | some row =>
    match st.object_store.lookup row.minio_key with
    | none => none
    | some payload =>
      let data :=
        if endsWithGz row.minio_key then decompress payload else payload
      decodeSnapshot data

/-- `BackupSystem::cleanup_old_checkpoints` from `backup.rs`: delete
rows older than `retention_days` (in ms before `now`). -/
def cleanupOldCheckpoints (cfg : CheckpointConfig) (now : Int)
    (st : BackupState) : BackupState :=
  { st with
      checkpoints :=
        st.checkpoints.filter
          (fun c =>
            !(decide (c.timestamp <
                now - (cfg.retention_days : Int) * 86400000))) }

/-- `BackupSystem::create_checkpoint` from `backup.rs`: INSERT the
checkpoint row, then auto-clean old checkpoints when configured.  The
fresh uuid `cid` and the current time `ts` are arguments. -/
def createCheckpoint (cfg : CheckpointConfig) (st : BackupState)
    (cid : Nat) (ts : Int) (taskCount : Nat)
    (lastCompleted : Option TaskId) (systemState : SystemState)
    (recoveryData : List (String × Json)) :
    BackupState × LocalCheckpoint :=
  let cp : LocalCheckpoint :=
    { id := cid, timestamp := ts, task_count := taskCount
      last_completed_task := lastCompleted, system_state := systemState
      recovery_data := recoveryData }
  let st := { st with checkpoints := st.checkpoints ++ [cp] }
  (if cfg.auto_cleanup then cleanupOldCheckpoints cfg ts st else st, cp)

/-- `BackupSystem::on_task_completed` from `backup.rs`: bump the counter;
when the new value is divisible by `tasks_per_checkpoint`, create and
persist a checkpoint recording the new counter value and the triggering
task. -/
def onTaskCompleted (cfg : CheckpointConfig) (st : BackupState)
    (taskId : TaskId) (cid : Nat) (ts : Int) :
    BackupState × Option LocalCheckpoint :=
  let current := st.completed_tasks_count + 1
  let st := { st with completed_tasks_count := current }
  if current % cfg.tasks_per_checkpoint == 0 then
    let recoveryData : List (String × Json) :=
      [("trigger_task", .str (toString taskId)),
       ("completed_count", encodeNat current)]
    let (st, cp) :=
      createCheckpoint cfg st cid ts current (some taskId)
        collectSystemState recoveryData
    (st, some cp)
  else (st, none)

/-- `BackupSystem::restore_latest_checkpoint` from `backup.rs`: take the
newest checkpoint row and store its `task_count` into the completed-task
counter. -/
def restoreLatestCheckpoint (st : BackupState) :
    Option LocalCheckpoint × BackupState :=
  match selectLatestCp st.checkpoints with
  | none => (none, st)
  | some cp =>
    (some cp, { st with completed_tasks_count := cp.task_count })

end Orch

namespace Orch

/-! Concrete instances used by counterexamples and witnesses. -/

/-- A task that has already failed (status set on an otherwise fresh
node). -/
def readinessCexNodeA : TaskNode :=
  { TaskNode.new 0 0 "A" none with status := .failed }

/-- A fresh pending task. -/
def readinessCexNodeB : TaskNode := TaskNode.new 1 0 "B" none

/-- A Hard dependency edge from the failed task to the pending one. -/
def readinessCexEdge : DependencyEdge := DependencyEdge.new 0 0 0 1 .hard

/-- The two-task mesh reached by `add_task`, `add_task`,
`add_dependency`: task 0 (Failed) is a Hard predecessor of task 1
(Pending). -/
def readinessCexMesh : TaskMesh :=
  ((((TaskMesh.new.addTask readinessCexNodeA).2.addTask
      readinessCexNodeB).2).addDependency readinessCexEdge).2

/-- A fresh pending task with id 0. -/
def cycleNode0 : TaskNode := TaskNode.new 0 0 "A" none

/-- A fresh pending task with id 1. -/
def cycleNode1 : TaskNode := TaskNode.new 1 0 "B" none

/-- A two-task mesh with the Hard edge 0 → 1 already inserted. -/
def cycleMesh : TaskMesh :=
  ((((TaskMesh.new.addTask cycleNode0).2.addTask
      cycleNode1).2).addDependency (DependencyEdge.new 0 0 0 1 .hard)).2

/-- The reverse edge 1 → 0, whose insertion would close a cycle. -/
def cycleBackEdge : DependencyEdge := DependencyEdge.new 1 0 1 0 .hard

/-- Breaker with `failure_threshold = 2` (the claim's trip point). -/
def breakerCexCfg : BreakerCfg :=
  { failure_threshold := 2, timeout_ms := 60000 }

/-- The call trace fail, success, fail: only one consecutive trailing
failure. -/
def breakerCexCalls : List (Int × Bool) :=
  [(0, false), (1, true), (2, false)]

end Orch

namespace Mesh

/-- A queued schedule item for task 1 with the default resource needs. -/
def schedCexItem : ScheduleItem :=
  { task_id := 1, priority_score := 5, estimated_ms := 1000
    deadline := none
    resource_requirements := ResourceAllocation.default }

/-- Scheduler state whose dependency graph records that task 0 must run
before task 1. -/
def schedCexState : SchedState :=
  { queue := [schedCexItem], dependency_graph := [(0, 1)] }

/-- Durable statuses at the time of the call: the predecessor task 0 is
still `Pending`. -/
def schedCexStatuses : List (TaskId × TaskStatus) := [(0, .pending)]

/-- The empty Redis store. -/
def redisEmpty : RedisStateStore :=
  { kv_tasks := [], kv_status := [], tasks_all := []
    kv_checkpoints := [], checkpoints_all := [] }

/-- Redis store produced by `update_task_status(7, Running)` followed by
`create_checkpoint("cp")`: the status key exists but task 7 was never
stored, so `tasks:all` does not index it. -/
def redisCexStore : RedisStateStore :=
  (redisEmpty.updateTaskStatus 7 (.running 0 "w1")).createCheckpoint
    "cp" 0

/-- A small concrete task with id 3. -/
def sampleTask3 : Task :=
  .mk 3 "t3" (.command "echo hi") [] 50 [] 0 none 3 []

/-- In-memory store holding a checkpoint with task 3 while the live
status of task 3 is `Scheduled`. -/
def restoreCexMemStore : MemoryStateStore :=
  { tasks := [(3, sampleTask3)]
    task_status := [(3, .scheduled)]
    checkpoints := [("c", { tasks := [sampleTask3], created_at := 0 })] }

/-- SQLite store holding the analogous checkpoint and live status row. -/
def restoreCexSqlStore : SqliteStateStore :=
  { tasks := [(3, sampleTask3)]
    task_status :=
      [(3, { status_type := "Scheduled", status_data := .scheduled
             updated_at := 0 })]
    checkpoints :=
      [("c", ({ tasks := [sampleTask3], created_at := 0 }, 0))] }

end Mesh

namespace Orch

/-! Theorems: task-mesh readiness and acyclicity (claims about
`graph.rs`). -/

/-- `can_execute` holds exactly on the two not-yet-started statuses. -/
theorem TaskNode.canExecute_iff (t : TaskNode) :
    t.canExecute = true ↔ (t.status = .pending ∨ t.status = .waiting) := by
  cases hs : t.status <;> simp [TaskNode.canExecute, hs]

/-- `is_complete` holds exactly on the three terminal statuses. -/
theorem TaskNode.isComplete_iff (t : TaskNode) :
    t.isComplete = true ↔
      (t.status = .completed ∨ t.status = .failed ∨
        t.status = .cancelled) := by
  cases hs : t.status <;> simp [TaskNode.isComplete, hs]

/-- C1 counterexample: in the mesh where task 0 has `Failed` and is a
Hard predecessor of the pending task 1, `can_execute_task` reports task 1
ready, while the readiness the claim states (all Hard predecessors
`Completed`; a `Failed` predecessor does not make the task ready) is
false — so the claimed "if and only if" fails at this input. -/
theorem canExecuteTask_spec_readiness_counterexample :
    readinessCexMesh.canExecuteTask 1 = .ok true ∧
    readinessCexMesh.specReady 1 = some false := by
  constructor <;> rfl

/-- C1 (amended): for every task in the mesh, `can_execute_task` returns
true exactly when the task has not yet started (Pending or Waiting) and
every predecessor — of any dependency kind, Hard, Soft, Resource or
Data — has a terminal status (Completed, Failed or Cancelled). -/
theorem canExecuteTask_ready_iff (m : TaskMesh) (taskId : TaskId)
    (t : TaskNode) (h : m.getTask taskId = some t) :
    m.canExecuteTask taskId = .ok true ↔
      ((t.status = .pending ∨ t.status = .waiting) ∧
        ∀ e ∈ m.edges, e.target = taskId →
          ∀ d, m.getTask e.source = some d →
            (d.status = .completed ∨ d.status = .failed ∨
              d.status = .cancelled)) := by
  by_cases hc : t.canExecute = true
  · simp only [TaskMesh.canExecuteTask, h, hc, Bool.not_true,
      Bool.false_eq_true, if_false]
    rw [show ((.ok ((m.getDependencies taskId).all
        (fun dep => dep.isComplete)) : Except OrchError Bool) = .ok true) ↔
        ((m.getDependencies taskId).all (fun dep => dep.isComplete)
          = true) from by simp]
    rw [List.all_eq_true]
    simp only [TaskMesh.getDependencies, List.mem_filterMap,
      List.mem_filter, beq_iff_eq, TaskNode.isComplete_iff]
    constructor
    · intro hall
      refine ⟨(TaskNode.canExecute_iff t).mp hc, ?_⟩
      intro e he hte d hd
      exact hall d ⟨e, ⟨he, hte⟩, hd⟩
    · rintro ⟨-, hall⟩ d ⟨e, ⟨he, hte⟩, hd⟩
      exact hall e he hte d hd
  · have hcf : t.canExecute = false := by
      simpa using hc
    simp only [TaskMesh.canExecuteTask, h, hcf, Bool.not_false, if_true]
    have : ¬ (t.status = .pending ∨ t.status = .waiting) := by
      rw [← TaskNode.canExecute_iff, hcf]
      simp
    simp [this]

/-- C1 amended witness: the pending task 1 of the counterexample mesh is
ready (its only predecessor is terminal), matching the amended
readiness. -/
theorem canExecuteTask_ready_iff_witness :
    readinessCexMesh.getTask 1 = some readinessCexNodeB ∧
    readinessCexMesh.canExecuteTask 1 = .ok true ∧
    ((readinessCexNodeB.status = .pending ∨
        readinessCexNodeB.status = .waiting) ∧
      ∀ e ∈ readinessCexMesh.edges, e.target = 1 →
        ∀ d, readinessCexMesh.getTask e.source = some d →
          (d.status = .completed ∨ d.status = .failed ∨
            d.status = .cancelled)) := by
  refine ⟨rfl, rfl, ?_⟩
  exact (canExecuteTask_ready_iff readinessCexMesh 1 readinessCexNodeB
    rfl).mp rfl

/-- C2: when the tentative insertion of an edge (between two existing
tasks) makes the graph cyclic, `add_dependency` reports
`CyclicDependency` and returns the mesh unchanged; when it keeps the
graph acyclic, the edge is inserted and its id returned. -/
theorem addDependency_cycle_rollback (m : TaskMesh) (e : DependencyEdge)
    (hs : (m.getTask e.source).isSome = true)
    (ht : (m.getTask e.target).isSome = true) :
    (TaskMesh.hasCycle { m with edges := m.edges ++ [e] } = true →
      m.addDependency e = (.error .cyclicDependency, m)) ∧
    (TaskMesh.hasCycle { m with edges := m.edges ++ [e] } = false →
      m.addDependency e = (.ok e.id, { m with edges := m.edges ++ [e] })) := by
  obtain ⟨ts, hts⟩ := Option.isSome_iff_exists.mp hs
  obtain ⟨tt, htt⟩ := Option.isSome_iff_exists.mp ht
  constructor <;> intro hcyc <;>
    simp [TaskMesh.addDependency, hts, htt, hcyc, List.dropLast_concat]

/-- C2 witness: on the mesh holding the Hard edge 0 → 1, inserting the
edge 1 → 0 is cyclic and is rolled back, leaving the mesh unchanged. -/
theorem addDependency_cycle_rollback_witness :
    (cycleMesh.getTask cycleBackEdge.source).isSome = true ∧
    (cycleMesh.getTask cycleBackEdge.target).isSome = true ∧
    TaskMesh.hasCycle
      { cycleMesh with edges := cycleMesh.edges ++ [cycleBackEdge] }
      = true ∧
    cycleMesh.addDependency cycleBackEdge =
      (.error .cyclicDependency, cycleMesh) := by
  refine ⟨rfl, rfl, rfl, ?_⟩
  exact (addDependency_cycle_rollback cycleMesh cycleBackEdge rfl rfl).1
    rfl

/-! Theorems: circuit breaker (claims about `errors.rs`). -/

/-- C4 counterexample: with `failure_threshold = 2`, after the call trace
fail, success, fail the breaker is Open although only one consecutive
failure (fewer than the threshold) preceded the transition — the success
did not reset the count, because the code compares the cumulative
`failed_calls` metric against the threshold. -/
theorem breaker_consecutive_failures_counterexample :
    (breakerRun breakerCexCfg "backend" breakerCexCalls
        (.closed, BreakerMetrics.default)).1 = .opened 2 2 ∧
    consecutiveFailures breakerCexCalls = 1 ∧
    1 < breakerCexCfg.failure_threshold := by
  refine ⟨rfl, rfl, by decide⟩

/-- C4 (amended): in Closed state the breaker transitions to Open exactly
when the cumulative failed-call count (incremented by this failure and
never reset by successes) reaches `failure_threshold`; a successful probe
in HalfOpen state transitions the breaker to Closed but leaves the
failure counter untouched. -/
theorem breaker_threshold_cumulative (cfg : BreakerCfg) (now : Int)
    (m : BreakerMetrics) (oa : Int) (flag : Bool) :
    ((recordFailure cfg now .closed m).1 = .closed ↔
      m.failed_calls + 1 < cfg.failure_threshold) ∧
    (cfg.failure_threshold ≤ m.failed_calls + 1 →
      (recordFailure cfg now .closed m).1 =
        .opened now (m.failed_calls + 1)) ∧
    (recordFailure cfg now .closed m).2.failed_calls =
      m.failed_calls + 1 ∧
    (recordSuccess (.halfOpen oa flag) m).1 = .closed ∧
    (recordSuccess (.halfOpen oa flag) m).2.failed_calls =
      m.failed_calls := by
  unfold recordFailure recordSuccess
  by_cases h : cfg.failure_threshold ≤ m.failed_calls + 1 <;>
    (simp [h]; try omega)

/-- C4 amended witness at threshold 1: the very first failure opens the
breaker and a half-open probe success closes it without resetting the
counter. -/
theorem breaker_threshold_cumulative_witness :
    ((recordFailure ⟨1, 0⟩ 5 .closed BreakerMetrics.default).1 = .closed ↔
      BreakerMetrics.default.failed_calls + 1 < 1) ∧
    (1 ≤ BreakerMetrics.default.failed_calls + 1 →
      (recordFailure ⟨1, 0⟩ 5 .closed BreakerMetrics.default).1 =
        .opened 5 (BreakerMetrics.default.failed_calls + 1)) ∧
    (recordFailure ⟨1, 0⟩ 5 .closed
        BreakerMetrics.default).2.failed_calls =
      BreakerMetrics.default.failed_calls + 1 ∧
    (recordSuccess (.halfOpen 3 false) BreakerMetrics.default).1 =
      .closed ∧
    (recordSuccess (.halfOpen 3 false)
        BreakerMetrics.default).2.failed_calls =
      BreakerMetrics.default.failed_calls :=
  breaker_threshold_cumulative ⟨1, 0⟩ 5 BreakerMetrics.default 3 false

/-- C5: while the breaker is Open and the timeout has not elapsed, a call
is rejected with the external-unavailable error without executing the
operation and without changing the state; while a HalfOpen probe is in
flight (`test_request_sent`), a call is likewise rejected unexecuted; and
admitting the single probe from HalfOpen sets the in-flight guard before
the operation runs, so any call arriving during the probe hits the
rejected case. -/
theorem breaker_open_halfopen_gating (cfg : BreakerCfg) (name : String)
    (now oa : Int) (fc : Nat) (m : BreakerMetrics) (op : Bool)
    (hto : now - oa ≤ cfg.timeout_ms) :
    breakerCall cfg name now (.opened oa fc) m op =
      (.opened oa fc, m, false) ∧
    (callAdmit cfg name now (.opened oa fc)).1 =
      .reject (.externalServiceError name "Circuit breaker is open") ∧
    breakerCall cfg name now (.halfOpen oa true) m op =
      (.halfOpen oa true, m, false) ∧
    callAdmit cfg name now (.halfOpen oa false) =
      (.proceed, .halfOpen oa true) := by
  have h1 : ¬ (cfg.timeout_ms < now - oa) := not_lt.mpr hto
  unfold breakerCall callAdmit
  simp [h1]

/-- C5 witness: an open breaker 10 ms into a 60 s timeout rejects; a
pending probe rejects; the probe admission arms the guard. -/
theorem breaker_open_halfopen_gating_witness :
    ((10 : Int) - 0 ≤ (60000 : Int)) ∧
    (breakerCall ⟨2, 60000⟩ "svc" 10 (.opened 0 2) BreakerMetrics.default
        true =
      (.opened 0 2, BreakerMetrics.default, false) ∧
    (callAdmit ⟨2, 60000⟩ "svc" 10 (.opened 0 2)).1 =
      .reject (.externalServiceError "svc" "Circuit breaker is open") ∧
    breakerCall ⟨2, 60000⟩ "svc" 10 (.halfOpen 0 true)
        BreakerMetrics.default true =
      (.halfOpen 0 true, BreakerMetrics.default, false) ∧
    callAdmit ⟨2, 60000⟩ "svc" 10 (.halfOpen 0 false) =
      (.proceed, .halfOpen 0 true)) :=
  ⟨by decide,
    breaker_open_halfopen_gating ⟨2, 60000⟩ "svc" 10 0 2
      BreakerMetrics.default true (by decide)⟩

/-! Theorems: retry backoff (claim about `RetryInfo` in `errors.rs`). -/

/-- C6: for a retry context as constructed by `RetryInfo::new`
(multiplier 2, jitter 0.1, base delay 100 ms), recording failed attempt
`i = attempt + 1` with random draw `r ∈ [0, 1)` sets the backoff to
`100·2^(i−1)` ms scaled by a jitter factor in `[1 − 0.1/2, 1 + 0.1/2]` —
so the stored delay lies in `[95·2^(i−1), 105·2^(i−1)]` ms — and sets the
next-eligible instant to the attempt time plus that delay. -/
theorem recordAttempt_backoff_bounds (info : RetryInfo) (now : Int)
    (r : ℚ) (hbase : info.exponential_base = 2)
    (hjit : info.jitter_factor = 1 / 10) (hr0 : 0 ≤ r) (hr1 : r < 1) :
    (info.recordAttempt now r).attempt = info.attempt + 1 ∧
    95 * 2 ^ info.attempt ≤ (info.recordAttempt now r).backoff_ms ∧
    (info.recordAttempt now r).backoff_ms ≤ 105 * 2 ^ info.attempt ∧
    (info.recordAttempt now r).last_attempt_at = now ∧
    (info.recordAttempt now r).next_retry_at =
      now + (info.recordAttempt now r).backoff_ms := by
  obtain ⟨a, ma, la, nr, bo, tot, eb, jf⟩ := info
  simp only at hbase hjit
  subst hbase hjit
  have h2 : (0:ℚ) < 2 ^ a := pow_pos (by norm_num) a
  have hbd : (⌊(100 : ℚ) * 2 ^ (a + 1 - 1)⌋).toNat = 100 * 2 ^ a := by
    rw [Nat.succ_sub_one]
    have hcast : (100 : ℚ) * 2 ^ a = ((100 * 2 ^ a : ℕ) : ℚ) := by
      push_cast
      ring
    rw [hcast, Int.floor_natCast, Int.toNat_natCast]
  have hv : ((100 * 2 ^ a : ℕ) : ℚ) * (1 + (r * (1 / 10) - 1 / 10 / 2)) =
      95 * 2 ^ a + 10 * r * 2 ^ a := by
    push_cast
    ring
  have hlo : ((95 * 2 ^ a : ℕ) : ℤ) ≤
      ⌊((100 * 2 ^ a : ℕ) : ℚ) * (1 + (r * (1 / 10) - 1 / 10 / 2))⌋ := by
    apply Int.le_floor.mpr
    rw [hv]
    push_cast
    nlinarith
  have hhi :
      ⌊((100 * 2 ^ a : ℕ) : ℚ) * (1 + (r * (1 / 10) - 1 / 10 / 2))⌋ ≤
        ((105 * 2 ^ a : ℕ) : ℤ) := by
    have : ((100 * 2 ^ a : ℕ) : ℚ) * (1 + (r * (1 / 10) - 1 / 10 / 2)) ≤
        ((105 * 2 ^ a : ℕ) : ℚ) := by
      rw [hv]
      push_cast
      nlinarith
    calc ⌊((100 * 2 ^ a : ℕ) : ℚ) * (1 + (r * (1 / 10) - 1 / 10 / 2))⌋
        ≤ ⌊((105 * 2 ^ a : ℕ) : ℚ)⌋ := Int.floor_le_floor this
      _ = ((105 * 2 ^ a : ℕ) : ℤ) := Int.floor_natCast _
  refine ⟨rfl, ?_, ?_, rfl, rfl⟩
  · show 95 * 2 ^ a ≤ (RetryInfo.recordAttempt _ now r).backoff_ms
    simp only [RetryInfo.recordAttempt, hbd]
    rw [Int.le_toNat (le_trans (by positivity) hlo)]
    exact_mod_cast hlo
  · show (RetryInfo.recordAttempt _ now r).backoff_ms ≤ 105 * 2 ^ a
    simp only [RetryInfo.recordAttempt, hbd]
    rw [Int.toNat_le]
    exact_mod_cast hhi

/-- C6 witness at the first attempt of a fresh context with `r = 1/2`:
the bounds 95–105 ms and the next-eligible update hold. -/
theorem recordAttempt_backoff_bounds_witness :
    (RetryInfo.new 0 3).exponential_base = 2 ∧
    (RetryInfo.new 0 3).jitter_factor = 1 / 10 ∧
    (0 : ℚ) ≤ 1 / 2 ∧ (1 / 2 : ℚ) < 1 ∧
    (((RetryInfo.new 0 3).recordAttempt 7 (1 / 2)).attempt =
        (RetryInfo.new 0 3).attempt + 1 ∧
      95 * 2 ^ (RetryInfo.new 0 3).attempt ≤
        ((RetryInfo.new 0 3).recordAttempt 7 (1 / 2)).backoff_ms ∧
      ((RetryInfo.new 0 3).recordAttempt 7 (1 / 2)).backoff_ms ≤
        105 * 2 ^ (RetryInfo.new 0 3).attempt ∧
      ((RetryInfo.new 0 3).recordAttempt 7 (1 / 2)).last_attempt_at = 7 ∧
      ((RetryInfo.new 0 3).recordAttempt 7 (1 / 2)).next_retry_at =
        7 + ((RetryInfo.new 0 3).recordAttempt 7 (1 / 2)).backoff_ms) :=
  ⟨rfl, rfl, by norm_num, by norm_num,
    recordAttempt_backoff_bounds (RetryInfo.new 0 3) 7 (1 / 2) rfl rfl
      (by norm_num) (by norm_num)⟩

/-! Theorems: checkpoint trigger (claim about
`BackupSystem::on_task_completed` in `backup.rs`). -/

/-- C7: `on_task_completed` raises the completed-task counter by exactly
one, and creates and persists a checkpoint exactly when the incremented
counter is divisible by `tasks_per_checkpoint` (assumed positive: `% 0`
panics in the source), the checkpoint recording the counter value and
the triggering task id. -/
theorem onTaskCompleted_counter_checkpoint (cfg : CheckpointConfig)
    (st : BackupState) (tid : TaskId) (cid : Nat) (ts : Int)
    (_hpos : 0 < cfg.tasks_per_checkpoint) :
    (onTaskCompleted cfg st tid cid ts).1.completed_tasks_count =
      st.completed_tasks_count + 1 ∧
    ((onTaskCompleted cfg st tid cid ts).2.isSome ↔
      (st.completed_tasks_count + 1) % cfg.tasks_per_checkpoint = 0) ∧
    (∀ cp, (onTaskCompleted cfg st tid cid ts).2 = some cp →
      cp.task_count = st.completed_tasks_count + 1 ∧
      cp.last_completed_task = some tid ∧
      cp ∈ (onTaskCompleted cfg st tid cid ts).1.checkpoints) := by
  have hnn : (0 : Int) ≤ (cfg.retention_days : Int) * 86400000 := by
    positivity
  have hkeep : ¬ (ts < ts - (cfg.retention_days : Int) * 86400000) := by
    rw [not_lt]
    omega
  unfold onTaskCompleted createCheckpoint cleanupOldCheckpoints
  by_cases h :
      (st.completed_tasks_count + 1) % cfg.tasks_per_checkpoint = 0
  · by_cases hac : cfg.auto_cleanup = true <;>
      simp [h, hac, List.mem_filter, hkeep]
  · simp [h]

/-- C7 witness: with `tasks_per_checkpoint = 2` and a counter at 1, the
completion of task 9 both increments the counter to 2 and triggers a
checkpoint recording `(2, task 9)`. -/
theorem onTaskCompleted_counter_checkpoint_witness :
    (0 < 2) ∧
    ((onTaskCompleted ⟨2, 30, true⟩
        ({ completed_tasks_count := 1, object_store := []
           snapshot_meta := [], checkpoints := [] }) 9 4
        100).1.completed_tasks_count = 1 + 1 ∧
      ((onTaskCompleted ⟨2, 30, true⟩
          ({ completed_tasks_count := 1, object_store := []
             snapshot_meta := [], checkpoints := [] }) 9 4
          100).2.isSome ↔ (1 + 1) % 2 = 0) ∧
      (∀ cp, (onTaskCompleted ⟨2, 30, true⟩
          ({ completed_tasks_count := 1, object_store := []
             snapshot_meta := [], checkpoints := [] }) 9 4
          100).2 = some cp →
        cp.task_count = 1 + 1 ∧
        cp.last_completed_task = some 9 ∧
        cp ∈ (onTaskCompleted ⟨2, 30, true⟩
            ({ completed_tasks_count := 1, object_store := []
               snapshot_meta := [], checkpoints := [] }) 9 4
            100).1.checkpoints)) :=
  ⟨by decide,
    onTaskCompleted_counter_checkpoint ⟨2, 30, true⟩
      ({ completed_tasks_count := 1, object_store := []
         snapshot_meta := [], checkpoints := [] }) 9 4 100 (by decide)⟩

end Orch

/-! Association-list lemmas shared by the store theorems. -/

/-- Looking up the freshly replaced key finds the new value. -/
theorem lookup_insertReplace_self {α β : Type} [BEq α] [LawfulBEq α]
    (l : List (α × β)) (k : α) (v : β) :
    (insertReplace l k v).lookup k = some v := by
  induction l with
  | nil => simp [insertReplace, List.lookup]
  | cons p rest ih =>
    obtain ⟨p1, p2⟩ := p
    by_cases h : (p1 == k) = true
    · simp [insertReplace, h, List.lookup]
    · have hp : p1 ≠ k := fun hh => h (by simp [hh])
      have h2 : (k == p1) = false :=
        beq_eq_false_iff_ne.mpr (Ne.symm hp)
      simp [insertReplace, h, List.lookup, h2, ih]

/-- Looking up any other key is unaffected by the replacement. -/
theorem lookup_insertReplace_ne {α β : Type} [BEq α] [LawfulBEq α]
    (l : List (α × β)) (k k2 : α) (v : β) (hne : k2 ≠ k) :
    (insertReplace l k v).lookup k2 = l.lookup k2 := by
  have hkk : (k2 == k) = false := beq_eq_false_iff_ne.mpr hne
  induction l with
  | nil => simp [insertReplace, List.lookup, hkk]
  | cons p rest ih =>
    obtain ⟨p1, p2⟩ := p
    by_cases h : (p1 == k) = true
    · have hp : p1 = k := eq_of_beq h
      subst hp
      simp [insertReplace, List.lookup, hkk]
    · by_cases h2 : (k2 == p1) = true <;>
        simp [insertReplace, h, List.lookup, h2, ih]

/-- Erasing a different key does not change a lookup. -/
theorem lookup_eraseKey_ne {α β : Type} [BEq α] [LawfulBEq α]
    (l : List (α × β)) (k k2 : α) (hne : k2 ≠ k) :
    (eraseKey l k).lookup k2 = l.lookup k2 := by
  have hkk : (k2 == k) = false := beq_eq_false_iff_ne.mpr hne
  induction l with
  | nil => rfl
  | cons p rest ih =>
    obtain ⟨p1, p2⟩ := p
    by_cases h : (p1 == k) = true
    · have hp : p1 = k := eq_of_beq h
      subst hp
      simpa [eraseKey, List.lookup, hkk] using ih
    · have ih2 : List.lookup k2 (List.filter (fun p => !(p.1 == k)) rest) =
          List.lookup k2 rest := by
        simpa [eraseKey] using ih
      by_cases h2 : (k2 == p1) = true <;>
        simp [eraseKey, h, List.lookup, h2, ih2]

namespace Mesh

/-! Theorems: scheduler dependency check (claim about
`Scheduler::get_next_task` / `dependencies_satisfied` in
`scheduler.rs`). -/

/-- C3 failing input: the queue holds one item for task 1, whose
predecessor task 0 (recorded in the scheduler's dependency graph) is
still `Pending`, and resources suffice.  `get_next_task` nevertheless
returns task 1, because `dependencies_satisfied` ignores its input and
returns `true` (its body is a TODO stub) — the claimed Hard-predecessor
gate (spelt out by `specDependenciesSatisfied`) is false here. -/
theorem getNextTask_ignores_dependencies :
    getNextTask schedCexState ResourceAllocation.default = (some 1, []) ∧
    specDependenciesSatisfied schedCexStatuses schedCexState 1 = false ∧
    (∀ s : SchedState, ∀ t : TaskId, dependenciesSatisfied s t = true) :=
  ⟨rfl, rfl, fun _ _ => rfl⟩

/-! Theorems: state-store status defaults and checkpoint restore (claims
about `state_store.rs`). -/

/-- C9: in all three bindings a task id with no stored status reads back
as `Ok(Pending)`, and `store_task` does not touch the status map — so an
unknown task and a freshly submitted one are indistinguishable to
`get_task_status`. -/
theorem getTaskStatus_unknown_pending (ms : MemoryStateStore)
    (ss : SqliteStateStore) (rs : RedisStateStore) (id : TaskId)
    (hm : ms.task_status.lookup id = none)
    (hs : ss.task_status.lookup id = none)
    (hr : rs.kv_status.lookup id = none) :
    ms.getTaskStatus id = .ok .pending ∧
    ss.getTaskStatus id = .ok .pending ∧
    rs.getTaskStatus id = .ok .pending ∧
    (∀ t : Task, (ms.storeTask t).getTaskStatus id = ms.getTaskStatus id) ∧
    (∀ t : Task, (ss.storeTask t).getTaskStatus id = ss.getTaskStatus id) ∧
    (∀ t : Task, (rs.storeTask t).getTaskStatus id =
      rs.getTaskStatus id) := by
  refine ⟨?_, ?_, ?_, fun t => rfl, fun t => rfl, fun t => rfl⟩ <;>
    simp [MemoryStateStore.getTaskStatus, SqliteStateStore.getTaskStatus,
      RedisStateStore.getTaskStatus, hm, hs, hr]

/-- C9 witness: the empty stores report `Pending` for task 5. -/
theorem getTaskStatus_unknown_pending_witness :
    (MemoryStateStore.new.task_status.lookup 5 = none) ∧
    ((⟨[], [], []⟩ : SqliteStateStore).task_status.lookup 5 = none) ∧
    (redisEmpty.kv_status.lookup 5 = none) ∧
    (MemoryStateStore.new.getTaskStatus 5 = .ok .pending ∧
      (⟨[], [], []⟩ : SqliteStateStore).getTaskStatus 5 = .ok .pending ∧
      redisEmpty.getTaskStatus 5 = .ok .pending ∧
      (∀ t : Task, (MemoryStateStore.new.storeTask t).getTaskStatus 5 =
        MemoryStateStore.new.getTaskStatus 5) ∧
      (∀ t : Task,
        ((⟨[], [], []⟩ : SqliteStateStore).storeTask t).getTaskStatus 5 =
          (⟨[], [], []⟩ : SqliteStateStore).getTaskStatus 5) ∧
      (∀ t : Task, (redisEmpty.storeTask t).getTaskStatus 5 =
        redisEmpty.getTaskStatus 5)) :=
  ⟨rfl, rfl, rfl,
    getTaskStatus_unknown_pending MemoryStateStore.new ⟨[], [], []⟩
      redisEmpty 5 rfl rfl rfl⟩

/-- The in-memory restore never touches the status map after clearing
it. -/
theorem mem_foldl_storeTask_status (l : List Task) (s : MemoryStateStore) :
    (l.foldl (fun acc t => acc.storeTask t) s).task_status =
      s.task_status := by
  induction l generalizing s with
  | nil => rfl
  | cons t ts ih => exact ih _

/-- The in-memory restore accumulates exactly the insertions of the
checkpointed tasks. -/
theorem mem_foldl_storeTask_tasks (l : List Task) (s : MemoryStateStore) :
    (l.foldl (fun acc t => acc.storeTask t) s).tasks =
      l.foldl (fun acc t => insertReplace acc t.id t) s.tasks := by
  induction l generalizing s with
  | nil => rfl
  | cons t ts ih => exact ih _

/-- The SQLite restore never touches the status table after clearing
it. -/
theorem sql_foldl_storeTask_status (l : List Task) (s : SqliteStateStore) :
    (l.foldl (fun acc t => acc.storeTask t) s).task_status =
      s.task_status := by
  induction l generalizing s with
  | nil => rfl
  | cons t ts ih => exact ih _

/-- The SQLite restore accumulates exactly the insertions of the
checkpointed tasks. -/
theorem sql_foldl_storeTask_tasks (l : List Task) (s : SqliteStateStore) :
    (l.foldl (fun acc t => acc.storeTask t) s).tasks =
      l.foldl (fun acc t => insertReplace acc t.id t) s.tasks := by
  induction l generalizing s with
  | nil => rfl
  | cons t ts ih => exact ih _

/-- Folding task insertions never affects ids outside the task list. -/
theorem lookup_foldl_insert_not_mem (l : List Task)
    (init : List (TaskId × Task)) (id : TaskId)
    (hid : id ∉ l.map Task.id) :
    (l.foldl (fun acc t => insertReplace acc t.id t) init).lookup id =
      init.lookup id := by
  induction l generalizing init with
  | nil => rfl
  | cons t ts ih =>
    simp only [List.map_cons, List.mem_cons, not_or] at hid
    rw [List.foldl_cons, ih _ hid.2,
      lookup_insertReplace_ne _ _ _ _ hid.1]

/-- With duplicate-free ids, folding task insertions makes every listed
task retrievable under its id. -/
theorem lookup_foldl_insert_mem (l : List Task)
    (init : List (TaskId × Task)) (t : Task)
    (hnd : (l.map Task.id).Nodup) (ht : t ∈ l) :
    (l.foldl (fun acc t => insertReplace acc t.id t) init).lookup t.id =
      some t := by
  induction l generalizing init with
  | nil => cases ht
  | cons u us ih =>
    simp only [List.map_cons, List.nodup_cons] at hnd
    rcases List.mem_cons.mp ht with h | h
    · subst h
      rw [List.foldl_cons, lookup_foldl_insert_not_mem _ _ _ hnd.1,
        lookup_insertReplace_self]
    · exact ih _ hnd.2 h

/-- C10 counterexample (Redis binding): starting from an empty store,
`update_task_status(7, Running)` followed by `create_checkpoint("cp")`
and `restore_checkpoint("cp")` leaves the stale status key behind —
task 7 still reads `Running`, not `Pending`, because the Redis restore
deletes only the statuses of ids indexed in `tasks:all`. -/
theorem redis_restore_stale_status_counterexample :
    (redisCexStore.restoreCheckpoint "cp").toOption.map
        (fun s => s.getTaskStatus 7) =
      some (.ok (.running 0 "w1")) ∧
    (TaskStatus.running 0 "w1" ≠ TaskStatus.pending) :=
  ⟨rfl, fun h => nomatch h⟩

/-- C10 (amended): for the in-memory and SQLite bindings, restoring a
stored checkpoint replaces the task set with exactly the tasks captured
in it (assuming their ids are duplicate-free, as `create_checkpoint`
guarantees by capturing a keyed table) and clears every task-status
entry, so afterwards every task's status reads `Pending`. -/
theorem restoreCheckpoint_resets_statuses (ms : MemoryStateStore)
    (cidM : String) (dM : CheckpointData) (ss : SqliteStateStore)
    (cidS : String) (dS : CheckpointData) (tsS : Int)
    (hm : ms.checkpoints.lookup cidM = some dM)
    (hs : ss.checkpoints.lookup cidS = some (dS, tsS))
    (hndM : (dM.tasks.map Task.id).Nodup)
    (hndS : (dS.tasks.map Task.id).Nodup) :
    (∃ ms2, ms.restoreCheckpoint cidM = .ok ms2 ∧
      ms2.task_status = [] ∧
      (∀ id, ms2.getTaskStatus id = .ok .pending) ∧
      (∀ t ∈ dM.tasks, ms2.tasks.lookup t.id = some t) ∧
      (∀ id, id ∉ dM.tasks.map Task.id → ms2.tasks.lookup id = none)) ∧
    (∃ ss2, ss.restoreCheckpoint cidS = .ok ss2 ∧
      ss2.task_status = [] ∧
      (∀ id, ss2.getTaskStatus id = .ok .pending) ∧
      (∀ t ∈ dS.tasks, ss2.tasks.lookup t.id = some t) ∧
      (∀ id, id ∉ dS.tasks.map Task.id → ss2.tasks.lookup id = none)) := by
  constructor
  · refine ⟨_, by rw [MemoryStateStore.restoreCheckpoint, hm], ?_, ?_, ?_, ?_⟩
    · exact mem_foldl_storeTask_status _ _
    · intro id
      rw [MemoryStateStore.getTaskStatus, mem_foldl_storeTask_status]
      rfl
    · intro t ht
      rw [mem_foldl_storeTask_tasks]
      exact lookup_foldl_insert_mem _ _ _ hndM ht
    · intro id hid
      rw [mem_foldl_storeTask_tasks, lookup_foldl_insert_not_mem _ _ _ hid]
      rfl
  · refine ⟨_, by rw [SqliteStateStore.restoreCheckpoint, hs], ?_, ?_, ?_, ?_⟩
    · exact sql_foldl_storeTask_status _ _
    · intro id
      rw [SqliteStateStore.getTaskStatus]
      rw [sql_foldl_storeTask_status]
      rfl
    · intro t ht
      rw [sql_foldl_storeTask_tasks]
      exact lookup_foldl_insert_mem _ _ _ hndS ht
    · intro id hid
      rw [sql_foldl_storeTask_tasks, lookup_foldl_insert_not_mem _ _ _ hid]
      rfl

/-- C10 amended witness: restoring the concrete stores whose live status
for task 3 was `Scheduled` yields stores where task 3 is back and reads
`Pending`. -/
theorem restoreCheckpoint_resets_statuses_witness :
    (restoreCexMemStore.checkpoints.lookup "c" =
      some ({ tasks := [sampleTask3], created_at := 0 })) ∧
    (restoreCexSqlStore.checkpoints.lookup "c" =
      some (({ tasks := [sampleTask3], created_at := 0 }), 0)) ∧
    (([sampleTask3].map Task.id).Nodup) ∧
    ((∃ ms2, restoreCexMemStore.restoreCheckpoint "c" = .ok ms2 ∧
      ms2.task_status = [] ∧
      (∀ id, ms2.getTaskStatus id = .ok .pending) ∧
      (∀ t ∈ ({ tasks := [sampleTask3], created_at := 0 } :
          CheckpointData).tasks, ms2.tasks.lookup t.id = some t) ∧
      (∀ id, id ∉ ({ tasks := [sampleTask3], created_at := 0 } :
          CheckpointData).tasks.map Task.id →
        ms2.tasks.lookup id = none)) ∧
    (∃ ss2, restoreCexSqlStore.restoreCheckpoint "c" = .ok ss2 ∧
      ss2.task_status = [] ∧
      (∀ id, ss2.getTaskStatus id = .ok .pending) ∧
      (∀ t ∈ ({ tasks := [sampleTask3], created_at := 0 } :
          CheckpointData).tasks, ss2.tasks.lookup t.id = some t) ∧
      (∀ id, id ∉ ({ tasks := [sampleTask3], created_at := 0 } :
          CheckpointData).tasks.map Task.id →
        ss2.tasks.lookup id = none))) :=
  ⟨rfl, rfl, by simp,
    restoreCheckpoint_resets_statuses restoreCexMemStore "c"
      ({ tasks := [sampleTask3], created_at := 0 }) restoreCexSqlStore "c"
      ({ tasks := [sampleTask3], created_at := 0 }) 0 rfl rfl (by simp)
      (by simp)⟩

end Mesh

namespace Orch

/-! Round-trip lemmas for the JSON codec (towards the snapshot restore
claim). -/

/-- Integers decode back. -/
theorem decodeInt_encodeInt (n : Int) : decodeInt (encodeInt n) = some n := by
  simp [decodeInt, encodeInt]

/-- Naturals decode back. -/
theorem decodeNat_encodeNat (n : Nat) : decodeNat (encodeNat n) = some n := by
  simp [decodeNat, encodeNat]

/-- Rationals decode back. -/
theorem decodeRat_encodeRat (q : ℚ) : decodeRat (encodeRat q) = some q := rfl

/-- Strings decode back. -/
theorem decodeString_encodeString (s : String) :
    decodeString (encodeString s) = some s := rfl

/-- On non-null values, `decodeOpt` defers to the inner decoder. -/
theorem decodeOpt_not_null {α : Type} (g : Json → Option α) (j : Json)
    (h : j ≠ .null) : decodeOpt g j = (g j).map some := by
  cases j <;> simp_all [decodeOpt]

/-- Optional integers decode back. -/
theorem decodeOptInt_roundtrip (o : Option Int) :
    decodeOpt decodeInt (encodeOpt encodeInt o) = some o := by
  cases o with
  | none => rfl
  | some a =>
    rw [show encodeOpt encodeInt (some a) = encodeInt a from rfl,
      decodeOpt_not_null _ _ (by simp [encodeInt]), decodeInt_encodeInt]
    rfl

/-- Optional rationals decode back. -/
theorem decodeOptRat_roundtrip (o : Option ℚ) :
    decodeOpt decodeRat (encodeOpt encodeRat o) = some o := by
  cases o with
  | none => rfl
  | some a =>
    rw [show encodeOpt encodeRat (some a) = encodeRat a from rfl,
      decodeOpt_not_null _ _ (by simp [encodeRat]), decodeRat_encodeRat]
    rfl

/-- Decoding a faithfully encoded element sequence recovers the list. -/
theorem decodeEach_map_roundtrip {α : Type} (f : α → Json)
    (g : Json → Option α) (hrt : ∀ a, g (f a) = some a) (l : List α) :
    decodeEach g (l.map f) = some l := by
  induction l with
  | nil => rfl
  | cons a as ih => simp [decodeEach, hrt, ih]

/-- Encoded lists decode back (given a faithful element codec). -/
theorem decodeList_encodeList {α : Type} (f : α → Json)
    (g : Json → Option α) (hrt : ∀ a, g (f a) = some a) (l : List α) :
    decodeList g (encodeList f l) = some l := by
  simp [decodeList, encodeList, decodeEach_map_roundtrip f g hrt]

/-- Optional strings decode back. -/
theorem decodeOptString_roundtrip (o : Option String) :
    decodeOpt decodeString (encodeOpt encodeString o) = some o := by
  cases o with
  | none => rfl
  | some a =>
    rw [show encodeOpt encodeString (some a) = encodeString a from rfl,
      decodeOpt_not_null _ _ (by simp [encodeString]),
      decodeString_encodeString]
    rfl

/-- Free-form JSON maps decode back. -/
theorem decodeJsonMap_roundtrip (l : List (String × Json)) :
    decodeJsonMap (encodeJsonMap l) = some l := rfl

/-- String lists decode back. -/
theorem decodeStringList_roundtrip (l : List String) :
    decodeList decodeString (encodeList encodeString l) = some l :=
  decodeList_encodeList _ _ decodeString_encodeString l

/-- Statuses decode back. -/
theorem decodeStatus_encodeStatus (s : TaskStatus) :
    decodeStatus (encodeStatus s) = some s := by
  cases s <;> rfl

/-- Priorities decode back. -/
theorem decodePriority_encodePriority (p : TaskPriority) :
    decodePriority (encodePriority p) = some p := by
  cases p <;> rfl

/-- Task types decode back. -/
theorem decodeTaskType_encodeTaskType (t : TaskType) :
    decodeTaskType (encodeTaskType t) = some t := by
  cases t <;> rfl

/-- Layers decode back. -/
theorem decodeLayer_encodeLayer (l : ExecutionLayer) :
    decodeLayer (encodeLayer l) = some l := by
  cases l <;> rfl

/-- Dependency kinds decode back. -/
theorem decodeDepType_encodeDepType (d : DependencyType) :
    decodeDepType (encodeDepType d) = some d := by
  cases d <;> rfl

/-- Task metrics decode back. -/
theorem decodeMetrics_encodeMetrics (m : TaskMetrics) :
    decodeMetrics (encodeMetrics m) = some m := by
  obtain ⟨a, b, c, d, e, f, g, h⟩ := m
  simp [encodeMetrics, decodeMetrics, decodeOptInt_roundtrip,
    decodeRat_encodeRat, decodeLayer_encodeLayer, decodeNat_encodeNat,
    decodeStringList_roundtrip]

/-- Stage D of the node decoder inverts the last three encoded
fields. -/
theorem decodeNodeD_encode (id : Nat) (name : String)
    (de : Option String) (s : TaskStatus) (p : TaskPriority)
    (ty : TaskType) (tg co : List String) (ca ua : Int)
    (sa dl : Option Int) (me : TaskMetrics)
    (cf ec : List (String × Json)) :
    decodeNodeD id name de s p ty tg co ca ua sa dl
      [("metrics", encodeMetrics me), ("configuration", encodeJsonMap cf),
       ("execution_context", encodeJsonMap ec)] =
      some ⟨id, name, de, s, p, ty, tg, co, ca, ua, sa, dl, me, cf, ec⟩ := by
  simp [decodeNodeD, expectField, decodeMetrics_encodeMetrics,
    decodeJsonMap, encodeJsonMap]

/-- Stage C of the node decoder inverts the four encoded timestamp
fields. -/
theorem decodeNodeC_encode (id : Nat) (name : String)
    (de : Option String) (s : TaskStatus) (p : TaskPriority)
    (ty : TaskType) (tg co : List String) (ca ua : Int)
    (sa dl : Option Int) (rest : List (String × Json)) :
    decodeNodeC id name de s p ty tg co
      (("created_at", encodeInt ca) :: ("updated_at", encodeInt ua) ::
        ("scheduled_at", encodeOpt encodeInt sa) ::
        ("deadline", encodeOpt encodeInt dl) :: rest) =
      decodeNodeD id name de s p ty tg co ca ua sa dl rest := by
  simp [decodeNodeC, expectField, decodeInt_encodeInt,
    decodeOptInt_roundtrip]

/-- Stage B of the node decoder inverts the priority, task-type, tags
and components fields. -/
theorem decodeNodeB_encode (id : Nat) (name : String)
    (de : Option String) (s : TaskStatus) (p : TaskPriority)
    (ty : TaskType) (tg co : List String) (rest : List (String × Json)) :
    decodeNodeB id name de s
      (("priority", encodePriority p) :: ("task_type", encodeTaskType ty) ::
        ("tags", encodeList encodeString tg) ::
        ("components", encodeList encodeString co) :: rest) =
      decodeNodeC id name de s p ty tg co rest := by
  simp [decodeNodeB, expectField, decodePriority_encodePriority,
    decodeTaskType_encodeTaskType, decodeStringList_roundtrip]

/-- Stage A of the node decoder inverts the id, name, description and
status fields. -/
theorem decodeNodeA_encode (id : Nat) (name : String)
    (de : Option String) (s : TaskStatus) (rest : List (String × Json)) :
    decodeNodeA
      (("id", encodeNat id) :: ("name", encodeString name) ::
        ("description", encodeOpt encodeString de) ::
        ("status", encodeStatus s) :: rest) =
      decodeNodeB id name de s rest := by
  simp [decodeNodeA, expectField, decodeNat_encodeNat,
    decodeString_encodeString, decodeOptString_roundtrip,
    decodeStatus_encodeStatus]

/-- Task nodes decode back. -/
theorem decodeNode_encodeNode (t : TaskNode) :
    decodeNode (encodeNode t) = some t := by
  obtain ⟨i, n, de, s, p, ty, tg, co, ca, ua, sa, dl, me, cf, ec⟩ := t
  show (decodeJsonMap (encodeNode _)).bind decodeNodeA = _
  rw [show decodeJsonMap
        (encodeNode ⟨i, n, de, s, p, ty, tg, co, ca, ua, sa, dl, me,
          cf, ec⟩) =
      some (("id", encodeNat i) :: ("name", encodeString n) ::
        ("description", encodeOpt encodeString de) ::
        ("status", encodeStatus s) ::
        ("priority", encodePriority p) ::
        ("task_type", encodeTaskType ty) ::
        ("tags", encodeList encodeString tg) ::
        ("components", encodeList encodeString co) ::
        ("created_at", encodeInt ca) :: ("updated_at", encodeInt ua) ::
        ("scheduled_at", encodeOpt encodeInt sa) ::
        ("deadline", encodeOpt encodeInt dl) ::
        [("metrics", encodeMetrics me), ("configuration", encodeJsonMap cf),
         ("execution_context", encodeJsonMap ec)]) from rfl]
  rw [Option.some_bind, decodeNodeA_encode, decodeNodeB_encode,
    decodeNodeC_encode, decodeNodeD_encode]

/-- Dependency edges decode back. -/
theorem decodeEdge_encodeEdge (e : DependencyEdge) :
    decodeEdge (encodeEdge e) = some e := by
  obtain ⟨i, s, t, d, w, m, c⟩ := e
  simp [encodeEdge, decodeEdge, decodeNat_encodeNat,
    decodeDepType_encodeDepType, decodeRat_encodeRat,
    decodeJsonMap_roundtrip, decodeInt_encodeInt]

/-- The serialized mesh decodes back. -/
theorem decodeMesh_encodeMesh (m : TaskMesh) :
    decodeMesh (encodeMesh m) = some m := by
  obtain ⟨nodes, edges⟩ := m
  simp [encodeMesh, decodeMesh,
    decodeList_encodeList encodeNode decodeNode decodeNode_encodeNode,
    decodeList_encodeList encodeEdge decodeEdge decodeEdge_encodeEdge]

/-- Snapshot metadata decodes back. -/
theorem decodeSnapshotMetadata_roundtrip (m : SnapshotMetadata) :
    decodeSnapshotMetadata (encodeSnapshotMetadata m) = some m := by
  obtain ⟨a, b, c, d, e, f⟩ := m
  simp [encodeSnapshotMetadata, decodeSnapshotMetadata,
    decodeNat_encodeNat, decodeOptRat_roundtrip]

/-- Serialized snapshots decode back. -/
theorem decodeSnapshot_encodeSnapshot (s : TaskGraphSnapshot) :
    decodeSnapshot (encodeSnapshot s) = some s := by
  obtain ⟨i, t, v, g, sm, md⟩ := s
  simp [encodeSnapshot, decodeSnapshot, decodeNat_encodeNat,
    decodeInt_encodeInt, decodeString_encodeString,
    decodeMesh_encodeMesh, decodeSnapshotMetadata_roundtrip]

end Orch

end Arkitect
